import Mathlib

/-!
# Verification of the falling-sand simulation core (src/main.c)

Shallow embedding of the C program in src/main.c: the grid data model,
the Material Registry (add_particle's switch), the Behavior Engine
(per-material update functions), the Frame Scheduler (the double scan in
main), the stroke rasterizer (particle_line) and the material selector
(next_material / prev_material).

Modelling conventions:
* C ints become Lean Int for coordinates; sizes (width, height) are Nat.
* float life_time and the Vector2 velocity become Rat (exact arithmetic in
  place of IEEE rounding; every value the program manipulates is a short
  decimal).
* The flat particle buffer becomes a total function from buffer offsets
  (Nat) to particles; offsets at or beyond width*height are never read by
  the embedded code paths that the C program defines, and writes there are
  harmless extra state.
* rand() becomes an explicit stream (rho : Nat -> Nat) of values in
  [0, RAND_MAX] together with a cursor k; each embedded rand() call reads
  rho k and advances the cursor, mirroring call order in the source.
* Reads of the buffer at an out-of-range raw offset are undefined behavior
  in C (get_particle performs no bounds check).  They are modelled by an
  Option-valued read that yields none out of range; theorems about code
  paths that perform such reads carry hypotheses keeping every read in
  range, and the out-of-range accesses themselves are recorded separately
  (see the raw-offset development for update_wood).
* add_particle declares an uninitialized local particle_t and its switch
  has no case for MAT_EMPTY, so for that material the fields elem_type,
  life_time, color and update_func keep indeterminate stack values.  The
  embedding makes this explicit with a Junk parameter holding those four
  field values; any instantiation of the parameter is a possible execution.
-/

/-- material_type from main.c (MAT_COUNT is kept as the numeric constant 9,
not as an enum member, matching the source comment that it is only a
support value). -/
inductive Material where
  | MAT_EMPTY
  | MAT_SAND
  | MAT_WATER
  | MAT_SMOKE
  | MAT_OIL
  | MAT_WALL
  | MAT_WOOD
  | MAT_FIRE
  | MAT_FLAME
deriving DecidableEq

open Material

/-- The integer value of each enumerator of material_type. -/
def matCode : Material → Int
  | MAT_EMPTY => 0
  | MAT_SAND => 1
  | MAT_WATER => 2
  | MAT_SMOKE => 3
  | MAT_OIL => 4
  | MAT_WALL => 5
  | MAT_WOOD => 6
  | MAT_FIRE => 7
  | MAT_FLAME => 8

/-- MAT_COUNT from main.c. -/
def MAT_COUNT : Int := 9

/-- element_type from main.c. -/
inductive Element where
  | ELEM_EMPTY
  | ELEM_STATIC
  | ELEM_SOLID
  | ELEM_LIQUID
  | ELEM_GAS
deriving DecidableEq

open Element

/-- The update_funcptr stored in each particle, as a closed enumeration of
the nine update functions defined in main.c. -/
inductive UpdateFunc where
  | UF_EMPTY
  | UF_SAND
  | UF_WATER
  | UF_SMOKE
  | UF_OIL
  | UF_WALL
  | UF_WOOD
  | UF_FIRE
  | UF_FLAME
deriving DecidableEq

open UpdateFunc

/-- Raylib Color (r, g, b, a). -/
structure Rgba where
  r : Nat
  g : Nat
  b : Nat
  a : Nat
deriving DecidableEq

/-- Raylib color constants used by main.c. -/
def YELLOW : Rgba := ⟨253, 249, 0, 255⟩

def SKYBLUE : Rgba := ⟨102, 191, 255, 255⟩

def GRAY : Rgba := ⟨130, 130, 130, 255⟩

def BLACK : Rgba := ⟨0, 0, 0, 255⟩

def LIGHTGRAY : Rgba := ⟨200, 200, 200, 255⟩

def RED : Rgba := ⟨230, 41, 55, 255⟩

def ORANGE : Rgba := ⟨255, 161, 0, 255⟩

def BLANK : Rgba := ⟨0, 0, 0, 0⟩

/-- particle_t from main.c. -/
structure Particle where
  mat_type : Material
  elem_type : Element
  life_time : Rat
  velocity : Rat × Rat
  color : Rgba
  has_been_updated : Bool
  update_func : UpdateFunc
deriving DecidableEq

/-- grid_t from main.c.  The 1-D particle array is the total function
cells; only offsets below width*height model the C buffer. -/
structure Grid where
  width : Nat
  height : Nat
  cells : Nat → Particle

/-- The empty particle written by clear_grid and remove_particle. -/
def emptyParticle : Particle :=
  ⟨MAT_EMPTY, ELEM_EMPTY, 0, (0, 0), BLANK, false, UF_EMPTY⟩

/-- Buffer offset formula index = y * width + x from main.c. -/
def gridIndex (g : Grid) (x y : Int) : Int := y * g.width + x

/-- The out-of-range test used by every bounds-checked accessor in main.c:
x < 0 or x >= width or y < 0 or y >= height. -/
def oob (g : Grid) (x y : Int) : Prop :=
  x < 0 ∨ x ≥ g.width ∨ y < 0 ∨ y ≥ g.height

instance (g : Grid) (x y : Int) : Decidable (oob g x y) := by
  unfold oob; infer_instance

/-- get_particle from main.c performs no bounds check and returns a pointer
into the buffer; this is the dereference of that pointer for an in-range
offset.  All embedded uses are at in-range offsets. -/
def getP (g : Grid) (x y : Int) : Particle :=
  g.cells (gridIndex g x y).toNat

/-- Dereferencing get_particle's pointer at an arbitrary coordinate: some
particle when the raw offset is inside the buffer, none when the C program
would read out of the allocation (undefined behavior). -/
def rawGet (g : Grid) (x y : Int) : Option Particle :=
  if 0 ≤ gridIndex g x y ∧ gridIndex g x y < (g.width * g.height : Nat) then
    some (getP g x y)
  else none

/-- get_particle_type from main.c. -/
def get_particle_type (p : Particle) : Material := p.mat_type

/-- mat_type of the particle behind a rawGet, for the unchecked neighbor
reads of update_oil and update_wood. -/
def rawMat (g : Grid) (x y : Int) : Option Material :=
  (rawGet g x y).map get_particle_type

/-- get_particle_type_pos from main.c: bounds-checked, MAT_EMPTY when out
of range. -/
def get_particle_type_pos (g : Grid) (x y : Int) : Material :=
  if oob g x y then MAT_EMPTY else (getP g x y).mat_type

/-- set_particle from main.c: the bounds check is on the flattened index
only, and uses index > width*height (not >=).  All seven particle fields
are copied, i.e. the whole record is stored. -/
def set_particle (g : Grid) (x y : Int) (p : Particle) : Grid :=
  let index := gridIndex g x y
  if index < 0 ∨ index > (g.width * g.height : Nat) then g
  else { g with cells := fun o => if o = index.toNat then p else g.cells o }

/-- Writing one field of the particle behind get_particle's pointer
(curr_particle->field = v in the source).  The source performs no bounds
check; callers always pass in-range coordinates, and the out-of-range case
(undefined behavior in C) is modelled as a no-op that no theorem relies
on. -/
def modifyP (g : Grid) (x y : Int) (f : Particle → Particle) : Grid :=
  let index := gridIndex g x y
  if 0 ≤ index ∧ index < (g.width * g.height : Nat) then
    { g with cells := fun o => if o = index.toNat then f (g.cells o) else g.cells o }
  else g

/-- curr_particle->has_been_updated = true. -/
def setUpdated (g : Grid) (x y : Int) : Grid :=
  modifyP g x y fun p => { p with has_been_updated := true }

/-- is_particle_empty from main.c. -/
def is_particle_empty (p : Particle) : Bool := p.mat_type = MAT_EMPTY

/-- is_particle_static from main.c. -/
def is_particle_static (p : Particle) : Bool := p.elem_type = ELEM_STATIC

/-- is_particle_solid from main.c. -/
def is_particle_solid (p : Particle) : Bool := p.elem_type = ELEM_SOLID

/-- is_particle_liquid from main.c. -/
def is_particle_liquid (p : Particle) : Bool := p.elem_type = ELEM_LIQUID

/-- is_particle_gas from main.c. -/
def is_particle_gas (p : Particle) : Bool := p.elem_type = ELEM_GAS

/-- is_pos_empty from main.c: out-of-range coordinates count as occupied. -/
def is_pos_empty (g : Grid) (x y : Int) : Bool :=
  if oob g x y then false else is_particle_empty (getP g x y)

/-- is_pos_static from main.c. -/
def is_pos_static (g : Grid) (x y : Int) : Bool :=
  if oob g x y then false else is_particle_static (getP g x y)

/-- is_pos_solid from main.c. -/
def is_pos_solid (g : Grid) (x y : Int) : Bool :=
  if oob g x y then false else is_particle_solid (getP g x y)

/-- is_pos_liquid from main.c. -/
def is_pos_liquid (g : Grid) (x y : Int) : Bool :=
  if oob g x y then false else is_particle_liquid (getP g x y)

/-- is_pos_gas from main.c. -/
def is_pos_gas (g : Grid) (x y : Int) : Bool :=
  if oob g x y then false else is_particle_gas (getP g x y)

/-- swap_particles from main.c: no bounds check; both flattened offsets are
exchanged wholesale and both has_been_updated flags set.  Exchanges with an
out-of-range offset are undefined behavior in C and modelled as a no-op
that no theorem relies on; note that a coordinate can be out of range while
its flattened offset is still inside the buffer, and then the C behavior is
defined and faithfully modelled. -/
def swap_particles (g : Grid) (x1 y1 x2 y2 : Int) : Grid :=
  let i1 := gridIndex g x1 y1
  let i2 := gridIndex g x2 y2
  if 0 ≤ i1 ∧ i1 < (g.width * g.height : Nat) ∧ 0 ≤ i2 ∧ i2 < (g.width * g.height : Nat) then
    { g with cells := fun o =>
        if o = i1.toNat then { g.cells i2.toNat with has_been_updated := true }
        else if o = i2.toNat then { g.cells i1.toNat with has_been_updated := true }
        else g.cells o }
  else g

/-- The four add_particle fields that stay uninitialized when the switch
has no case for the requested material (stack garbage in C). -/
structure Junk where
  elem_type : Element
  life_time : Rat
  color : Rgba
  update_func : UpdateFunc

/-- The particle built by add_particle's switch for material m.  For
materials without a case (MAT_EMPTY) the four switch-assigned fields keep
the indeterminate values junk. -/
def registryParticle (junk : Junk) (m : Material) : Particle :=
  match m with
  | MAT_SAND => ⟨m, ELEM_SOLID, 0, (0, 0), YELLOW, false, UF_SAND⟩
  | MAT_WATER => ⟨m, ELEM_LIQUID, 0, (0, 0), { SKYBLUE with a := 128 }, false, UF_WATER⟩
  | MAT_SMOKE => ⟨m, ELEM_GAS, 3, (0, 0), GRAY, false, UF_SMOKE⟩
  | MAT_OIL => ⟨m, ELEM_LIQUID, 3, (0, 0), BLACK, false, UF_OIL⟩
  | MAT_WALL => ⟨m, ELEM_STATIC, 0, (0, 0), LIGHTGRAY, false, UF_WALL⟩
  | MAT_WOOD => ⟨m, ELEM_STATIC, 15/2, (0, 0), ⟨66, 27, 4, 255⟩, false, UF_WOOD⟩
  | MAT_FIRE => ⟨m, ELEM_SOLID, 8, (0, 0), RED, false, UF_FIRE⟩
  | MAT_FLAME => ⟨m, ELEM_GAS, 3/2, (0, 0), ORANGE, false, UF_FLAME⟩
  | MAT_EMPTY => ⟨m, junk.elem_type, junk.life_time, (0, 0), junk.color, false, junk.update_func⟩

/-- add_particle from main.c: no-op unless the target position is empty
(is_pos_empty is false out of range, so out-of-range adds are no-ops);
otherwise the switch-built particle is stored via set_particle. -/
def add_particle (junk : Junk) (g : Grid) (x y : Int) (m : Material) : Grid :=
  if ¬ is_pos_empty g x y then g
  else set_particle g x y (registryParticle junk m)

/-- A fixed choice for the indeterminate fields, used for the internal
add_particle calls of the engine; those always pass MAT_FIRE or MAT_SMOKE,
whose switch cases assign every field, so the choice never surfaces. -/
def junk0 : Junk := ⟨ELEM_EMPTY, 0, BLANK, UF_EMPTY⟩

/-- remove_particle from main.c: returns early when is_pos_empty holds
(which is false both for occupied cells and for every out-of-range
coordinate), otherwise stores the empty particle via set_particle. -/
def remove_particle (g : Grid) (x y : Int) : Grid :=
  if is_pos_empty g x y then g
  else set_particle g x y emptyParticle

/-- clear_grid from main.c: every cell of the buffer becomes the empty
particle. -/
def clear_grid (g : Grid) : Grid :=
  { g with cells := fun _ => emptyParticle }

/-- new_grid from main.c: calloc plus clear_grid, an all-empty buffer. -/
def new_grid (w h : Nat) : Grid := ⟨w, h, fun _ => emptyParticle⟩

/-- next_material from main.c, on the underlying C int. -/
def next_material (m : Int) : Int :=
  let m' := if m = MAT_COUNT - 1 then 0 else m
  m' + 1

/-- prev_material from main.c, on the underlying C int. -/
def prev_material (m : Int) : Int :=
  let m' := if m = 1 then MAT_COUNT else m
  m' - 1

/-- RAND_MAX of the target platform (glibc). -/
def RAND_MAX : Nat := 2147483647

/-- The life_time decrement (float)rand() / (float)(RAND_MAX / K) from the
decay rules, in exact arithmetic: r / (RAND_MAX / K). -/
def decayAmount (r : Nat) (K : Rat) : Rat := (r : Rat) / ((RAND_MAX : Rat) / K)

/-- update_empty from main.c: only marks the cell processed. -/
def update_empty (g : Grid) (x y : Int) : Grid := setUpdated g x y

/-- update_wall from main.c: only marks the cell processed. -/
def update_wall (g : Grid) (x y : Int) : Grid := setUpdated g x y

/-- The destination test of update_sand: empty, liquid or gas. -/
def sand_dest_ok (g : Grid) (a b : Int) : Bool :=
  is_pos_empty g a b || is_pos_liquid g a b || is_pos_gas g a b

/-- update_sand from main.c.  A cell in the bottom row only marks itself
processed; otherwise the particle swaps with straight-below, else
below-left, else below-right (the two lateral falls vetoed when the cell
straight below is static), and finally the slot at (x, y) is marked
processed (through the pointer fetched at entry, hence on whatever
particle now occupies the slot). -/
def update_sand (g : Grid) (x y : Int) : Grid :=
  let below := y - 1
  let left := x - 1
  let right := x + 1
  if y = 0 then setUpdated g x y
  else
    let g' :=
      if sand_dest_ok g x below then swap_particles g x y x below
      else if sand_dest_ok g left below && !is_pos_static g x below then
        swap_particles g x y left below
      else if sand_dest_ok g right below && !is_pos_static g x below then
        swap_particles g x y right below
      else g
    setUpdated g' x y

/-- The destination test of update_water: empty, gas, or an oil cell. -/
def water_dest_ok (g : Grid) (a b : Int) : Bool :=
  is_pos_empty g a b || is_pos_gas g a b || decide (get_particle_type_pos g a b = MAT_OIL)

/-- update_water from main.c: below, below-left, below-right (lateral falls
vetoed when straight below is static), then left, then right; every
destination tested with the same empty-or-gas-or-oil predicate. -/
def update_water (g : Grid) (x y : Int) : Grid :=
  let below := y - 1
  let left := x - 1
  let right := x + 1
  let g' :=
    if water_dest_ok g x below then swap_particles g x y x below
    else if water_dest_ok g left below && !is_pos_static g x below then
      swap_particles g x y left below
    else if water_dest_ok g right below && !is_pos_static g x below then
      swap_particles g x y right below
    else if water_dest_ok g left y then swap_particles g x y left y
    else if water_dest_ok g right y then swap_particles g x y right y
    else g
  setUpdated g' x y

/-- update_smoke from main.c: early return at y == height, stochastic
life_time decay with constant 0.1, removal at life_time <= 0, otherwise
rise (above, above-left, above-right with the static veto, then left,
then right, empty destinations only). -/
def update_smoke (ρ : Nat → Nat) (g : Grid) (x y : Int) (k : Nat) : Grid × Nat :=
  let above := y + 1
  let left := x - 1
  let right := x + 1
  if y = (g.height : Int) then (setUpdated g x y, k)
  else
    let L := (getP g x y).life_time - decayAmount (ρ k) (1/10)
    let g1 := modifyP g x y fun p => { p with life_time := L }
    if L ≤ 0 then (setUpdated (remove_particle g1 x y) x y, k + 1)
    else
      let g2 :=
        if is_pos_empty g1 x above then swap_particles g1 x y x above
        else if is_pos_empty g1 left above && !is_pos_static g1 x above then
          swap_particles g1 x y left above
        else if is_pos_empty g1 right above && !is_pos_static g1 x above then
          swap_particles g1 x y right above
        else if is_pos_empty g1 left y then swap_particles g1 x y left y
        else if is_pos_empty g1 right y then swap_particles g1 x y right y
        else g1
      (setUpdated g2 x y, k + 1)

/-- One of the eight ignition checks of update_oil: if the unchecked
neighbor read sees fire or flame, roll rand() % 4 and on a nonzero roll
(3-in-4) replace the cell with a fresh fire particle whose element class
is then overridden to liquid and whose velocity is restored to the oil's
velocity captured at function entry. -/
def igniteOil (ρ : Nat → Nat) (x y : Int) (tempVel : Rat × Rat) (nx ny : Int) :
    Grid × Nat → Grid × Nat :=
  fun gk =>
    match rawMat gk.1 nx ny with
    | some MAT_FLAME | some MAT_FIRE =>
      let r := ρ gk.2 % 4
      if r ≠ 0 then
        let gA := add_particle junk0 (remove_particle gk.1 x y) x y MAT_FIRE
        (modifyP gA x y fun p => { p with elem_type := ELEM_LIQUID, velocity := tempVel },
         gk.2 + 1)
      else (gk.1, gk.2 + 1)
    | _ => gk

/-- The liquid movement block of update_oil (its last five branches):
straight below only when empty, the two diagonal falls when empty or gas
and not vetoed by a static cell straight below, then left and right only
when empty. -/
def update_oil_move (g : Grid) (x y : Int) : Grid :=
  let below := y - 1
  let left := x - 1
  let right := x + 1
  if is_pos_empty g x below then swap_particles g x y x below
  else if (is_pos_empty g left below || is_pos_gas g left below)
      && !is_pos_static g x below then
    swap_particles g x y left below
  else if (is_pos_empty g right below || is_pos_gas g right below)
      && !is_pos_static g x below then
    swap_particles g x y right below
  else if is_pos_empty g left y then swap_particles g x y left y
  else if is_pos_empty g right y then swap_particles g x y right y
  else g

/-- update_oil from main.c: the eight ignition checks in source order
(below-left, below, below-right, left, right, above-left, above,
above-right), then the liquid movement block, then the processed mark. -/
def update_oil (ρ : Nat → Nat) (g : Grid) (x y : Int) (k : Nat) : Grid × Nat :=
  let above := y + 1
  let below := y - 1
  let left := x - 1
  let right := x + 1
  let tempVel := (getP g x y).velocity
  let s :=
    igniteOil ρ x y tempVel right above
    (igniteOil ρ x y tempVel x above
    (igniteOil ρ x y tempVel left above
    (igniteOil ρ x y tempVel right y
    (igniteOil ρ x y tempVel left y
    (igniteOil ρ x y tempVel right below
    (igniteOil ρ x y tempVel x below
    (igniteOil ρ x y tempVel left below (g, k))))))))
  (setUpdated (update_oil_move s.1 x y) x y, s.2)

/-- One of the eight ignition checks of update_wood: on a fire or flame
neighbor, roll rand() % 2 and on zero (1-in-2) replace the cell with fresh
fire, overriding its element class to static and restoring the wood's
velocity. -/
def igniteWood (ρ : Nat → Nat) (x y : Int) (tempVel : Rat × Rat) (nx ny : Int) :
    Grid × Nat → Grid × Nat :=
  fun gk =>
    match rawMat gk.1 nx ny with
    | some MAT_FLAME | some MAT_FIRE =>
      let r := ρ gk.2 % 2
      if r = 0 then
        let gA := add_particle junk0 (remove_particle gk.1 x y) x y MAT_FIRE
        (modifyP gA x y fun p => { p with elem_type := ELEM_STATIC, velocity := tempVel },
         gk.2 + 1)
      else (gk.1, gk.2 + 1)
    | _ => gk

/-- update_wood from main.c: the eight ignition checks in source order and
the processed mark; wood never moves. -/
def update_wood (ρ : Nat → Nat) (g : Grid) (x y : Int) (k : Nat) : Grid × Nat :=
  let above := y + 1
  let below := y - 1
  let left := x - 1
  let right := x + 1
  let tempVel := (getP g x y).velocity
  let s :=
    igniteWood ρ x y tempVel right above
    (igniteWood ρ x y tempVel x above
    (igniteWood ρ x y tempVel left above
    (igniteWood ρ x y tempVel right y
    (igniteWood ρ x y tempVel left y
    (igniteWood ρ x y tempVel right below
    (igniteWood ρ x y tempVel x below
    (igniteWood ρ x y tempVel left below (g, k))))))))
  (setUpdated s.1 x y, s.2)

/-- update_fire from main.c: recolor from four fixed shades by rand() % 4,
stochastic decay with constant 0.15, and on expiry removal with a
rand() % 5 == 0 (1-in-5) chance of adding fresh smoke in place; a live
fire does not move and does not mark itself processed.  A surviving fire
consumes two rand() values (color and decay); the third is drawn only
inside the expiry branch. -/
def update_fire (ρ : Nat → Nat) (g : Grid) (x y : Int) (k : Nat) : Grid × Nat :=
  let r := ρ k % 4
  let g1 := modifyP g x y fun p =>
    { p with color :=
        if r = 0 then ⟨255, 0, 0, 255⟩
        else if r = 1 then ⟨192, 0, 0, 255⟩
        else if r = 2 then ⟨160, 0, 0, 255⟩
        else if r = 3 then ⟨64, 0, 0, 255⟩
        else p.color }
  let L := (getP g1 x y).life_time - decayAmount (ρ (k + 1)) (3/20)
  let g2 := modifyP g1 x y fun p => { p with life_time := L }
  if L ≤ 0 then
    let g3 := remove_particle g2 x y
    let g4 := if ρ (k + 2) % 5 = 0 then add_particle junk0 g3 x y MAT_SMOKE else g3
    (setUpdated g4 x y, k + 3)
  else (g2, k + 2)

/-- update_flame from main.c: stochastic decay with constant 0.25, removal
on expiry, otherwise the same rise pattern as smoke (without smoke's
y == height early return). -/
def update_flame (ρ : Nat → Nat) (g : Grid) (x y : Int) (k : Nat) : Grid × Nat :=
  let above := y + 1
  let left := x - 1
  let right := x + 1
  let L := (getP g x y).life_time - decayAmount (ρ k) (1/4)
  let g1 := modifyP g x y fun p => { p with life_time := L }
  if L ≤ 0 then (setUpdated (remove_particle g1 x y) x y, k + 1)
  else
    let g2 :=
      if is_pos_empty g1 x above then swap_particles g1 x y x above
      else if is_pos_empty g1 left above && !is_pos_static g1 x above then
        swap_particles g1 x y left above
      else if is_pos_empty g1 right above && !is_pos_static g1 x above then
        swap_particles g1 x y right above
      else if is_pos_empty g1 left y then swap_particles g1 x y left y
      else if is_pos_empty g1 right y then swap_particles g1 x y right y
      else g1
    (setUpdated g2 x y, k + 1)

/-- The function-pointer call curr_particle->update_func(grid, x, y). -/
def dispatch (ρ : Nat → Nat) (g : Grid) (x y : Int) (k : Nat) : Grid × Nat :=
  match (getP g x y).update_func with
  | UF_EMPTY => (update_empty g x y, k)
  | UF_SAND => (update_sand g x y, k)
  | UF_WATER => (update_water g x y, k)
  | UF_SMOKE => update_smoke ρ g x y k
  | UF_OIL => update_oil ρ g x y k
  | UF_WALL => (update_wall g x y, k)
  | UF_WOOD => update_wood ρ g x y k
  | UF_FIRE => update_fire ρ g x y k
  | UF_FLAME => update_flame ρ g x y k

/-- One visit of the simulation scan in main: skip the cell when its
has_been_updated flag is set, otherwise invoke its update function.  The
offset o corresponds to the loop coordinates x = o % width, y = o / width,
visited in exactly ascending-offset order by the row-major scan. -/
def simStep (ρ : Nat → Nat) (w : Nat) (gk : Grid × Nat) (o : Nat) : Grid × Nat :=
  if (gk.1.cells o).has_been_updated then gk
  else dispatch ρ gk.1 ((o % w : Nat) : Int) ((o / w : Nat) : Int) gk.2

/-- One frame of the render loop in main, restricted to its simulation
content: the bottom-up row-major update scan followed by the second scan
that clears every has_been_updated flag. -/
def stepFrame (ρ : Nat → Nat) (gk : Grid × Nat) : Grid × Nat :=
  let w := gk.1.width
  let h := gk.1.height
  let sim := (List.range (w * h)).foldl (simStep ρ w) gk
  ({ sim.1 with cells := fun o => { sim.1.cells o with has_been_updated := false } }, sim.2)

/-- The per-cell edit of particle_line: remove_particle when the material
argument is MAT_EMPTY, add_particle otherwise (the source hoists this test
out of the loop; the two loop bodies are otherwise identical). -/
def line_edit (junk : Junk) (m : Material) (g : Grid) (x y : Int) : Grid :=
  if m = MAT_EMPTY then remove_particle g x y else add_particle junk g x y m

/-- The Bresenham loop of particle_line.  The fuel argument only bounds the
iteration count; every reachable execution breaks out before exhausting
the fuel chosen by particle_line, because each non-final iteration moves
x1 or y1 one step toward the endpoint. -/
def line_loop (junk : Junk) (m : Material) (x2 y2 dx dy sx sy : Int) :
    Nat → Grid → Int → Int → Int → Grid
  | 0, g, _, _, _ => g
  | fuel + 1, g, x1, y1, error =>
    let g1 := line_edit junk m g x1 y1
    if x1 = x2 ∧ y1 = y2 then g1
    else
      let e2 := 2 * error
      if e2 ≥ dy then
        if x1 = x2 then g1
        else
          let x1' := x1 + sx
          let er1 := error + dy
          if e2 ≤ dx then
            if y1 = y2 then g1
            else line_loop junk m x2 y2 dx dy sx sy fuel g1 x1' (y1 + sy) (er1 + dx)
          else line_loop junk m x2 y2 dx dy sx sy fuel g1 x1' y1 er1
      else
        if e2 ≤ dx then
          if y1 = y2 then g1
          else line_loop junk m x2 y2 dx dy sx sy fuel g1 x1 (y1 + sy) (error + dx)
        else line_loop junk m x2 y2 dx dy sx sy fuel g1 x1 y1 error

/-- particle_line from main.c: clamp each coordinate from above to width
respectively height (no lower clamp; the comparison is strict, so width
and height themselves survive), then run the Bresenham loop. -/
def particle_line (junk : Junk) (g : Grid) (px1 py1 px2 py2 : Int) (m : Material) : Grid :=
  let x1 := if px1 > (g.width : Int) then (g.width : Int) else px1
  let x2 := if px2 > (g.width : Int) then (g.width : Int) else px2
  let y1 := if py1 > (g.height : Int) then (g.height : Int) else py1
  let y2 := if py2 > (g.height : Int) then (g.height : Int) else py2
  let dx : Int := |x2 - x1|
  let sx : Int := if x1 < x2 then 1 else -1
  let dy : Int := -|y2 - y1|
  let sy : Int := if y1 < y2 then 1 else -1
  let error := dx + dy
  line_loop junk m x2 y2 dx dy sx sy ((dx - dy).toNat + 1) g x1 y1 error

/-- The registry default sand particle (add_particle's MAT_SAND case). -/
def sandParticle : Particle := registryParticle junk0 MAT_SAND

/-- The registry default smoke particle (add_particle's MAT_SMOKE case). -/
def smokeParticle : Particle := registryParticle junk0 MAT_SMOKE

/-- The registry default oil particle (add_particle's MAT_OIL case). -/
def oilParticle : Particle := registryParticle junk0 MAT_OIL

/-- The registry default fire particle (add_particle's MAT_FIRE case). -/
def fireParticle : Particle := registryParticle junk0 MAT_FIRE

/-- The registry default flame particle (add_particle's MAT_FLAME case). -/
def flameParticle : Particle := registryParticle junk0 MAT_FLAME

/-- A 2 x 2 grid whose only occupied cell is sand at coordinates (1, 0),
buffer offset 1. -/
def gC1 : Grid :=
  ⟨2, 2, fun o => if o = 1 then sandParticle else emptyParticle⟩

/-- The eight neighbor coordinates that update_wood and update_oil pass
to the unchecked get_particle, in source order (below-left, below,
below-right, left, right, above-left, above, above-right). -/
def woodNeighborReads (x y : Int) : List (Int × Int) :=
  [(x - 1, y - 1), (x, y - 1), (x + 1, y - 1), (x - 1, y),
   (x + 1, y), (x - 1, y + 1), (x, y + 1), (x + 1, y + 1)]

/-- A 3 x 3 grid with oil at (1, 1) (offset 4) directly above smoke at
(1, 0) (offset 1); all other cells empty. -/
def gC4 : Grid :=
  ⟨3, 3, fun o =>
    if o = 4 then oilParticle
    else if o = 1 then smokeParticle
    else emptyParticle⟩

/-- A w x h grid whose only occupied cell is the default sand particle at
coordinates (x, y), buffer offset y * w + x; all flags clear. -/
def soloSand (w h x y : Nat) : Grid :=
  ⟨w, h, fun o => if o = y * w + x then sandParticle else emptyParticle⟩

/-- The empty particle with its has_been_updated flag set, as left behind
by update_empty during the simulation scan. -/
def emptyVisited : Particle := { emptyParticle with has_been_updated := true }

/-- The sand particle with its has_been_updated flag set, as left behind
by swap_particles during the simulation scan. -/
def sandMoved : Particle := { sandParticle with has_been_updated := true }

/-- Mid-scan state of the simulation pass over soloSand w h x y: the first
n cells have been visited (update_empty marked them), the sand at offset
y * w + x has not yet moved.  Meaningful for n at most y * w + x. -/
def scanA (w h x y n : Nat) : Grid :=
  ⟨w, h, fun o =>
    if o = y * w + x then sandParticle
    else if o < n then emptyVisited
    else emptyParticle⟩

/-- Mid-scan state after the sand at offset y * w + x has swapped one row
down to offset (y - 1) * w + x and the first n offsets have all been
visited.  Meaningful for n greater than y * w + x. -/
def scanB (w h x y n : Nat) : Grid :=
  ⟨w, h, fun o =>
    if o = (y - 1) * w + x then sandMoved
    else if o < n then emptyVisited
    else emptyParticle⟩

/-- A w x h grid whose first j buffer offsets (the cells (0, 0) .. (j-1, 0)
when j is at most w) hold default sand and the rest are empty. -/
def rowFill (w h j : Nat) : Grid :=
  ⟨w, h, fun o => if o < j then sandParticle else emptyParticle⟩

/-- A 1 x 1 grid holding the given particle. -/
def oneCell (p : Particle) : Grid := ⟨1, 1, fun _ => p⟩

/-- One concrete choice of the indeterminate stack contents of
add_particle's local particle: the fields of a sand particle. -/
def junkBad : Junk := ⟨ELEM_SOLID, 5, YELLOW, UF_SAND⟩

/-- The update function the Material Registry (add_particle's switch,
clear_grid and remove_particle for MAT_EMPTY) associates to each
material. -/
def registryUpdateFunc : Material → UpdateFunc
  | MAT_EMPTY => UF_EMPTY
  | MAT_SAND => UF_SAND
  | MAT_WATER => UF_WATER
  | MAT_SMOKE => UF_SMOKE
  | MAT_OIL => UF_OIL
  | MAT_WALL => UF_WALL
  | MAT_WOOD => UF_WOOD
  | MAT_FIRE => UF_FIRE
  | MAT_FLAME => UF_FLAME

/-- Grid states reachable from construction through the public mutation
surface: add_particle (with arbitrary stack contents for its uninitialized
local), remove_particle, clear_grid, particle_line strokes, and frame
steps with an arbitrary rand() stream. -/
inductive Reach (w h : Nat) : Grid → Prop where
  | init : Reach w h (new_grid w h)
  | add (g : Grid) (junk : Junk) (x y : Int) (m : Material) :
      Reach w h g → Reach w h (add_particle junk g x y m)
  | remove (g : Grid) (x y : Int) : Reach w h g → Reach w h (remove_particle g x y)
  | clear (g : Grid) : Reach w h g → Reach w h (clear_grid g)
  | stroke (g : Grid) (junk : Junk) (x1 y1 x2 y2 : Int) (m : Material) :
      Reach w h g → Reach w h (particle_line junk g x1 y1 x2 y2 m)
  | step (g : Grid) (ρ : Nat → Nat) (k : Nat) :
      Reach w h g → Reach w h (stepFrame ρ (g, k)).1

/-- The part of the claimed registry-consistency invariant that no
documented in-place mutation is allowed to touch: every in-range cell's
update function is the registry's update function for its material. -/
def claimedRegistryInv (g : Grid) : Prop :=
  ∀ o, o < g.width * g.height →
    (g.cells o).update_func = registryUpdateFunc (g.cells o).mat_type

/-- The movement clause of the amended C4 claim for water: every
destination (below, below-left, below-right, then lateral left and right)
qualifies when empty, gas, or oil, and the two diagonal falls are vetoed
when the cell straight below is static. -/
def C4WaterCases (g : Grid) (x y : Int) : Prop :=
  (water_dest_ok g x (y - 1) = true →
    update_water g x y = setUpdated (swap_particles g x y x (y - 1)) x y) ∧
  (water_dest_ok g x (y - 1) = false → water_dest_ok g (x - 1) (y - 1) = true →
    is_pos_static g x (y - 1) = false →
    update_water g x y = setUpdated (swap_particles g x y (x - 1) (y - 1)) x y) ∧
  (water_dest_ok g x (y - 1) = false →
    (water_dest_ok g (x - 1) (y - 1) = false ∨ is_pos_static g x (y - 1) = true) →
    water_dest_ok g (x + 1) (y - 1) = true → is_pos_static g x (y - 1) = false →
    update_water g x y = setUpdated (swap_particles g x y (x + 1) (y - 1)) x y) ∧
  (water_dest_ok g x (y - 1) = false →
    (water_dest_ok g (x - 1) (y - 1) = false ∨ is_pos_static g x (y - 1) = true) →
    (water_dest_ok g (x + 1) (y - 1) = false ∨ is_pos_static g x (y - 1) = true) →
    water_dest_ok g (x - 1) y = true →
    update_water g x y = setUpdated (swap_particles g x y (x - 1) y) x y) ∧
  (water_dest_ok g x (y - 1) = false →
    (water_dest_ok g (x - 1) (y - 1) = false ∨ is_pos_static g x (y - 1) = true) →
    (water_dest_ok g (x + 1) (y - 1) = false ∨ is_pos_static g x (y - 1) = true) →
    water_dest_ok g (x - 1) y = false → water_dest_ok g (x + 1) y = true →
    update_water g x y = setUpdated (swap_particles g x y (x + 1) y) x y) ∧
  (water_dest_ok g x (y - 1) = false →
    (water_dest_ok g (x - 1) (y - 1) = false ∨ is_pos_static g x (y - 1) = true) →
    (water_dest_ok g (x + 1) (y - 1) = false ∨ is_pos_static g x (y - 1) = true) →
    water_dest_ok g (x - 1) y = false → water_dest_ok g (x + 1) y = false →
    update_water g x y = setUpdated g x y)

/-- The movement clause of the amended C4 claim for oil: straight below
qualifies only when empty, the diagonal falls when empty or gas (vetoed
when straight below is static), the laterals only when empty. -/
def C4OilCases (g : Grid) (x y : Int) : Prop :=
  (is_pos_empty g x (y - 1) = true →
    update_oil_move g x y = swap_particles g x y x (y - 1)) ∧
  (is_pos_empty g x (y - 1) = false →
    (is_pos_empty g (x - 1) (y - 1) || is_pos_gas g (x - 1) (y - 1)) = true →
    is_pos_static g x (y - 1) = false →
    update_oil_move g x y = swap_particles g x y (x - 1) (y - 1)) ∧
  (is_pos_empty g x (y - 1) = false →
    ((is_pos_empty g (x - 1) (y - 1) || is_pos_gas g (x - 1) (y - 1)) = false ∨
      is_pos_static g x (y - 1) = true) →
    (is_pos_empty g (x + 1) (y - 1) || is_pos_gas g (x + 1) (y - 1)) = true →
    is_pos_static g x (y - 1) = false →
    update_oil_move g x y = swap_particles g x y (x + 1) (y - 1)) ∧
  (is_pos_empty g x (y - 1) = false →
    ((is_pos_empty g (x - 1) (y - 1) || is_pos_gas g (x - 1) (y - 1)) = false ∨
      is_pos_static g x (y - 1) = true) →
    ((is_pos_empty g (x + 1) (y - 1) || is_pos_gas g (x + 1) (y - 1)) = false ∨
      is_pos_static g x (y - 1) = true) →
    is_pos_empty g (x - 1) y = true →
    update_oil_move g x y = swap_particles g x y (x - 1) y) ∧
  (is_pos_empty g x (y - 1) = false →
    ((is_pos_empty g (x - 1) (y - 1) || is_pos_gas g (x - 1) (y - 1)) = false ∨
      is_pos_static g x (y - 1) = true) →
    ((is_pos_empty g (x + 1) (y - 1) || is_pos_gas g (x + 1) (y - 1)) = false ∨
      is_pos_static g x (y - 1) = true) →
    is_pos_empty g (x - 1) y = false → is_pos_empty g (x + 1) y = true →
    update_oil_move g x y = swap_particles g x y (x + 1) y) ∧
  (is_pos_empty g x (y - 1) = false →
    ((is_pos_empty g (x - 1) (y - 1) || is_pos_gas g (x - 1) (y - 1)) = false ∨
      is_pos_static g x (y - 1) = true) →
    ((is_pos_empty g (x + 1) (y - 1) || is_pos_gas g (x + 1) (y - 1)) = false ∨
      is_pos_static g x (y - 1) = true) →
    is_pos_empty g (x - 1) y = false → is_pos_empty g (x + 1) y = false →
    update_oil_move g x y = g)

/-- The scheduling clause of the amended C4 claim for oil: at an interior
cell none of whose eight neighbors holds fire or flame, update_oil is
exactly its movement block followed by the processed mark, with no rand()
consumed. -/
def C4OilLink (g : Grid) (x y : Int) (rho : Nat → Nat) (k : Nat) : Prop :=
  1 ≤ x → x ≤ (g.width : Int) - 2 → 1 ≤ y → y ≤ (g.height : Int) - 2 →
  (∀ c ∈ woodNeighborReads x y,
    rawMat g c.1 c.2 ≠ some MAT_FIRE ∧ rawMat g c.1 c.2 ≠ some MAT_FLAME) →
  update_oil rho g x y k = (setUpdated (update_oil_move g x y) x y, k)

/-- The decay clause of claim C5, for a cell at in-bounds (x, y): each of
smoke, fire and flame decrements its life_time by the scaled rand() draw
(uniform over [0, K] with K = 0.1, 0.15, 0.25 respectively), a cell whose
budget reaches zero or below is replaced with Empty, except that expiring
fire rolls one extra rand() and with residue 0 mod 5 (exactly one residue
in five, hence one value in every five consecutive rand() outcomes) leaves
fresh smoke instead. -/
def C5Conclusion (g : Grid) (x y : Int) (rho : Nat → Nat) (k : Nat) : Prop :=
  (∀ r : Nat, r ≤ RAND_MAX →
    (0 ≤ decayAmount r (1/10) ∧ decayAmount r (1/10) ≤ 1/10) ∧
    (0 ≤ decayAmount r (3/20) ∧ decayAmount r (3/20) ≤ 3/20) ∧
    (0 ≤ decayAmount r (1/4) ∧ decayAmount r (1/4) ≤ 1/4)) ∧
  (get_particle_type_pos g x y = MAT_SMOKE →
    (getP g x y).life_time - decayAmount (rho k) (1/10) ≤ 0 →
    get_particle_type_pos (update_smoke rho g x y k).1 x y = MAT_EMPTY ∧
    (update_smoke rho g x y k).2 = k + 1) ∧
  (get_particle_type_pos g x y = MAT_SMOKE →
    0 < (getP g x y).life_time - decayAmount (rho k) (1/10) →
    is_pos_empty g x (y + 1) = false → is_pos_empty g (x - 1) (y + 1) = false →
    is_pos_empty g (x + 1) (y + 1) = false → is_pos_empty g (x - 1) y = false →
    is_pos_empty g (x + 1) y = false →
    (getP (update_smoke rho g x y k).1 x y).mat_type = MAT_SMOKE ∧
    (getP (update_smoke rho g x y k).1 x y).life_time
      = (getP g x y).life_time - decayAmount (rho k) (1/10) ∧
    (update_smoke rho g x y k).2 = k + 1) ∧
  (get_particle_type_pos g x y = MAT_FIRE →
    (getP g x y).life_time - decayAmount (rho (k + 1)) (3/20) ≤ 0 →
    get_particle_type_pos (update_fire rho g x y k).1 x y
      = (if rho (k + 2) % 5 = 0 then MAT_SMOKE else MAT_EMPTY) ∧
    (update_fire rho g x y k).2 = k + 3) ∧
  (get_particle_type_pos g x y = MAT_FIRE →
    (getP g x y).life_time - decayAmount (rho (k + 1)) (3/20) ≤ 0 →
    ∀ n : Nat,
      ((Finset.range (5 * n)).filter fun r =>
        get_particle_type_pos
          (update_fire (fun i => if i = k + 2 then r else rho i) g x y k).1 x y
          = MAT_SMOKE).card = n) ∧
  (get_particle_type_pos g x y = MAT_FIRE →
    0 < (getP g x y).life_time - decayAmount (rho (k + 1)) (3/20) →
    (getP (update_fire rho g x y k).1 x y).mat_type = MAT_FIRE ∧
    (getP (update_fire rho g x y k).1 x y).life_time
      = (getP g x y).life_time - decayAmount (rho (k + 1)) (3/20) ∧
    (update_fire rho g x y k).2 = k + 2) ∧
  (get_particle_type_pos g x y = MAT_FLAME →
    (getP g x y).life_time - decayAmount (rho k) (1/4) ≤ 0 →
    get_particle_type_pos (update_flame rho g x y k).1 x y = MAT_EMPTY ∧
    (update_flame rho g x y k).2 = k + 1) ∧
  (get_particle_type_pos g x y = MAT_FLAME →
    0 < (getP g x y).life_time - decayAmount (rho k) (1/4) →
    is_pos_empty g x (y + 1) = false → is_pos_empty g (x - 1) (y + 1) = false →
    is_pos_empty g (x + 1) (y + 1) = false → is_pos_empty g (x - 1) y = false →
    is_pos_empty g (x + 1) y = false →
    (getP (update_flame rho g x y k).1 x y).mat_type = MAT_FLAME ∧
    (getP (update_flame rho g x y k).1 x y).life_time
      = (getP g x y).life_time - decayAmount (rho k) (1/4) ∧
    (update_flame rho g x y k).2 = k + 1)

lemma not_oob_iff {g : Grid} {x y : Int} :
    ¬ oob g x y ↔ 0 ≤ x ∧ x < (g.width : Int) ∧ 0 ≤ y ∧ y < (g.height : Int) := by
  unfold oob; omega

lemma gridIndex_bounds {g : Grid} {x y : Int}
    (hx0 : 0 ≤ x) (hxw : x < (g.width : Int)) (hy0 : 0 ≤ y) (hyh : y < (g.height : Int)) :
    0 ≤ gridIndex g x y ∧ gridIndex g x y < ((g.width * g.height : Nat) : Int) := by
  unfold gridIndex
  constructor
  · exact add_nonneg (mul_nonneg hy0 (by positivity)) hx0
  · push_cast
    have h1 : (y + 1) * (g.width : Int) ≤ (g.height : Int) * (g.width : Int) :=
      mul_le_mul_of_nonneg_right (by omega) (by positivity)
    nlinarith [h1]

/-- C10: at the public selector interface the out-of-domain input
MAT_EMPTY behaves asymmetrically: next_material maps it to MAT_SAND but
prev_material maps it to -1, a value that is not the code of any
material. -/
theorem C10_selector_boundary :
    next_material (matCode MAT_EMPTY) = matCode MAT_SAND ∧
    prev_material (matCode MAT_EMPTY) = -1 ∧
    ∀ m : Material, matCode m ≠ -1 := by
  refine ⟨by decide, by decide, fun m => ?_⟩
  cases m <;> decide

/-- C1: the claim that add_particle, remove_particle and swap_particles
are no-ops at every out-of-range coordinate fails on the code.  On a 2 x 2
grid holding only sand at (1, 0): remove_particle at the out-of-range
coordinate (-1, 1) erases that sand, because the is_pos_empty early-out is
false out of range and set_particle's index-only bounds check accepts the
wrapped flat index 1*2 + (-1) = 1; and swap_particles at out-of-range
(-1, 1) against in-range (0, 0) moves the sand into cell (0, 0) for the
same reason (no check at all). -/
theorem C1_oob_mutation_not_noop :
    (gC1.cells 1).mat_type = MAT_SAND ∧
    ((remove_particle gC1 (-1) 1).cells 1).mat_type = MAT_EMPTY ∧
    (gC1.cells 0).mat_type = MAT_EMPTY ∧
    ((swap_particles gC1 (-1) 1 0 0).cells 0).mat_type = MAT_SAND := by
  exact ⟨by decide, by decide, by decide, by decide⟩

/-- C2: the claim that no core operation ever touches the buffer at an
offset outside the valid range fails on the code: update_wood's eight
ignition checks call the unchecked get_particle on raw neighbor
coordinates, and for a wood cell at the corner (0, 0) of a 256 x 256 grid
the very first read, at (-1, -1), has flat offset -257, outside
the buffer (the modelled read has no defined value). -/
theorem C2_unchecked_neighbor_read :
    ∃ c ∈ woodNeighborReads 0 0,
      (gridIndex (new_grid 256 256) c.1 c.2 < 0 ∨
        ((256 * 256 : Nat) : Int) ≤ gridIndex (new_grid 256 256) c.1 c.2) ∧
      rawMat (new_grid 256 256) c.1 c.2 = none := by
  exact ⟨(-1, -1), by decide, by decide, by decide⟩

/-- C7: the claim that add_particle on an Empty cell writes the registry's
default particle for every material fails for MAT_EMPTY: the switch has no
case for it, so the four switch-assigned fields keep indeterminate stack
values.  With one concrete choice of those values the written cell has
material Empty but is not the default Empty particle, and two different
choices of stack contents yield two different written cells. -/
theorem C7_add_empty_material_junk :
    ((add_particle junkBad (new_grid 2 2) 0 0 MAT_EMPTY).cells 0).mat_type = MAT_EMPTY ∧
    (add_particle junkBad (new_grid 2 2) 0 0 MAT_EMPTY).cells 0 ≠ emptyParticle ∧
    (add_particle junkBad (new_grid 2 2) 0 0 MAT_EMPTY).cells 0 ≠
      (add_particle junk0 (new_grid 2 2) 0 0 MAT_EMPTY).cells 0 := by
  exact ⟨by decide, by decide, by decide⟩

/-- C9: the claimed always-registry-consistent invariant fails on a
reachable state: one public add_particle call with material MAT_EMPTY on a
fresh grid leaves a cell whose update function is whatever was on the
stack (here a sand update function under an Empty material), violating
the invariant that every cell's update rule is the registry default for
its material. -/
theorem C9_reachable_junk_cell :
    Reach 2 2 (add_particle junkBad (new_grid 2 2) 0 0 MAT_EMPTY) ∧
    ¬ claimedRegistryInv (add_particle junkBad (new_grid 2 2) 0 0 MAT_EMPTY) := by
  constructor
  · exact Reach.add _ junkBad 0 0 MAT_EMPTY Reach.init
  · intro hinv
    exact absurd (hinv 0 (by decide)) (by decide)

/-- C4 counterexample: the claim says a liquid's straight-below
destination qualifies when it holds gas, so oil at (1, 1) above smoke at
(1, 0) would swap straight down, putting oil at (1, 0).  The code's
update_oil accepts only an empty cell straight below, skips the smoke and
falls below-left instead: after the update (1, 0) still holds smoke (not
oil) and the oil sits at (0, 0). -/
theorem C4_counterexample_oil_over_gas :
    get_particle_type_pos ((update_oil (fun _ => 0) gC4 1 1 0).1) 1 0 ≠ MAT_OIL ∧
    get_particle_type_pos ((update_oil (fun _ => 0) gC4 1 1 0).1) 1 0 = MAT_SMOKE ∧
    get_particle_type_pos ((update_oil (fun _ => 0) gC4 1 1 0).1) 0 0 = MAT_OIL ∧
    get_particle_type_pos gC4 1 1 = MAT_OIL ∧ is_pos_gas gC4 1 0 = true := by
  exact ⟨by decide, by decide, by decide, by decide, by decide⟩

lemma sand_dest_ok_not_oob {g : Grid} {a b : Int} (h : sand_dest_ok g a b = true) :
    ¬ oob g a b := by
  intro hc
  simp [sand_dest_ok, is_pos_empty, is_pos_liquid, is_pos_gas, hc] at h

lemma swap_particles_width (g : Grid) (x1 y1 x2 y2 : Int) :
    (swap_particles g x1 y1 x2 y2).width = g.width := by
  unfold swap_particles; dsimp only; split_ifs <;> rfl

lemma swap_particles_height (g : Grid) (x1 y1 x2 y2 : Int) :
    (swap_particles g x1 y1 x2 y2).height = g.height := by
  unfold swap_particles; dsimp only; split_ifs <;> rfl

lemma modifyP_width (g : Grid) (x y : Int) (f : Particle → Particle) :
    (modifyP g x y f).width = g.width := by
  unfold modifyP; dsimp only; split_ifs <;> rfl

lemma modifyP_height (g : Grid) (x y : Int) (f : Particle → Particle) :
    (modifyP g x y f).height = g.height := by
  unfold modifyP; dsimp only; split_ifs <;> rfl

lemma set_particle_width (g : Grid) (x y : Int) (p : Particle) :
    (set_particle g x y p).width = g.width := by
  unfold set_particle; dsimp only; split_ifs <;> rfl

lemma set_particle_height (g : Grid) (x y : Int) (p : Particle) :
    (set_particle g x y p).height = g.height := by
  unfold set_particle; dsimp only; split_ifs <;> rfl

lemma gridIndex_swap (g : Grid) (x1 y1 x2 y2 u v : Int) :
    gridIndex (swap_particles g x1 y1 x2 y2) u v = gridIndex g u v := by
  unfold gridIndex; rw [swap_particles_width]

lemma gridIndex_modifyP (g : Grid) (x y : Int) (f : Particle → Particle) (u v : Int) :
    gridIndex (modifyP g x y f) u v = gridIndex g u v := by
  unfold gridIndex; rw [modifyP_width]

lemma gridIndex_set_particle (g : Grid) (x y : Int) (p : Particle) (u v : Int) :
    gridIndex (set_particle g x y p) u v = gridIndex g u v := by
  unfold gridIndex; rw [set_particle_width]

lemma oob_swap (g : Grid) (x1 y1 x2 y2 u v : Int) :
    oob (swap_particles g x1 y1 x2 y2) u v ↔ oob g u v := by
  unfold oob; rw [swap_particles_width, swap_particles_height]

lemma oob_modifyP (g : Grid) (x y : Int) (f : Particle → Particle) (u v : Int) :
    oob (modifyP g x y f) u v ↔ oob g u v := by
  unfold oob; rw [modifyP_width, modifyP_height]

lemma oob_set_particle (g : Grid) (x y : Int) (p : Particle) (u v : Int) :
    oob (set_particle g x y p) u v ↔ oob g u v := by
  unfold oob; rw [set_particle_width, set_particle_height]

lemma cells_modifyP_eq {g : Grid} {x y : Int} (f : Particle → Particle)
    (h0 : 0 ≤ gridIndex g x y) (h1 : gridIndex g x y < ((g.width * g.height : Nat) : Int)) :
    (modifyP g x y f).cells (gridIndex g x y).toNat = f (g.cells (gridIndex g x y).toNat) := by
  unfold modifyP
  dsimp only
  rw [if_pos ⟨h0, h1⟩]
  simp

lemma cells_modifyP_ne {g : Grid} {x y : Int} (f : Particle → Particle) {o : Nat}
    (ho : o ≠ (gridIndex g x y).toNat) :
    (modifyP g x y f).cells o = g.cells o := by
  unfold modifyP
  dsimp only
  split_ifs with h
  · simp [ho]
  · rfl

lemma cells_set_particle_eq {g : Grid} {x y : Int} (p : Particle)
    (h0 : 0 ≤ gridIndex g x y) (h1 : gridIndex g x y < ((g.width * g.height : Nat) : Int)) :
    (set_particle g x y p).cells (gridIndex g x y).toNat = p := by
  unfold set_particle
  dsimp only
  rw [if_neg (by omega)]
  simp

lemma cells_set_particle_ne {g : Grid} {x y : Int} (p : Particle) {o : Nat}
    (ho : o ≠ (gridIndex g x y).toNat) :
    (set_particle g x y p).cells o = g.cells o := by
  unfold set_particle
  dsimp only
  split_ifs with h
  · rfl
  · simp [ho]

lemma cells_swap_fst {g : Grid} {x y a b : Int}
    (h1 : 0 ≤ gridIndex g x y) (h2 : gridIndex g x y < ((g.width * g.height : Nat) : Int))
    (h3 : 0 ≤ gridIndex g a b) (h4 : gridIndex g a b < ((g.width * g.height : Nat) : Int)) :
    (swap_particles g x y a b).cells (gridIndex g x y).toNat
      = { g.cells (gridIndex g a b).toNat with has_been_updated := true } := by
  unfold swap_particles
  dsimp only
  rw [if_pos ⟨h1, h2, h3, h4⟩]
  simp

lemma cells_swap_snd {g : Grid} {x y a b : Int}
    (h1 : 0 ≤ gridIndex g x y) (h2 : gridIndex g x y < ((g.width * g.height : Nat) : Int))
    (h3 : 0 ≤ gridIndex g a b) (h4 : gridIndex g a b < ((g.width * g.height : Nat) : Int))
    (hne : gridIndex g x y ≠ gridIndex g a b) :
    (swap_particles g x y a b).cells (gridIndex g a b).toNat
      = { g.cells (gridIndex g x y).toNat with has_been_updated := true } := by
  unfold swap_particles
  dsimp only
  rw [if_pos ⟨h1, h2, h3, h4⟩]
  have : (gridIndex g a b).toNat ≠ (gridIndex g x y).toNat := by omega
  simp [this]

lemma cells_swap_other {g : Grid} {x y a b : Int} {o : Nat}
    (ho1 : o ≠ (gridIndex g x y).toNat) (ho2 : o ≠ (gridIndex g a b).toNat) :
    (swap_particles g x y a b).cells o = g.cells o := by
  unfold swap_particles
  dsimp only
  split_ifs with h
  · simp [ho1, ho2]
  · rfl

lemma get_after_swap_mark {g : Grid} {x y a b : Int}
    (hxy : ¬ oob g x y) (hab : ¬ oob g a b)
    (hne : gridIndex g x y ≠ gridIndex g a b) :
    get_particle_type_pos (setUpdated (swap_particles g x y a b) x y) a b
      = get_particle_type_pos g x y := by
  obtain ⟨hx0, hxw, hy0, hyh⟩ := not_oob_iff.mp hxy
  obtain ⟨ha0, haw, hb0, hbh⟩ := not_oob_iff.mp hab
  obtain ⟨i1nn, i1lt⟩ := gridIndex_bounds hx0 hxw hy0 hyh
  obtain ⟨i2nn, i2lt⟩ := gridIndex_bounds ha0 haw hb0 hbh
  unfold setUpdated
  unfold get_particle_type_pos
  rw [if_neg ((oob_modifyP _ _ _ _ _ _).not.mpr ((oob_swap _ _ _ _ _ _ _).not.mpr hab)),
    if_neg hxy]
  unfold getP
  rw [gridIndex_modifyP, gridIndex_swap]
  have hone : (gridIndex g a b).toNat ≠ (gridIndex (swap_particles g x y a b) x y).toNat := by
    rw [gridIndex_swap]; omega
  rw [cells_modifyP_ne _ hone, cells_swap_snd i1nn i1lt i2nn i2lt hne]

/-- C3: for every in-bounds sand cell, a particle in the bottom row never
moves; otherwise update_sand swaps with, in order, straight-below, then
below-left, then below-right, where a destination qualifies if it is
empty, liquid or gas (sand_dest_ok), a lateral fall is vetoed whenever the
cell straight below is static, and nothing qualifying leaves the grid
unchanged except for the processed mark; in particular a sand cell blocked
straight below by a non-static cell with both diagonal cells open always
moves below-left. -/
theorem C3_sand_rule (g : Grid) (x y : Int)
    (hx0 : 0 ≤ x) (hxw : x < (g.width : Int)) (hy0 : 0 ≤ y) (hyh : y < (g.height : Int))
    (hmat : get_particle_type_pos g x y = MAT_SAND) :
    (y = 0 → update_sand g x y = setUpdated g x y) ∧
    (y ≠ 0 → sand_dest_ok g x (y - 1) = true →
      update_sand g x y = setUpdated (swap_particles g x y x (y - 1)) x y) ∧
    (y ≠ 0 → sand_dest_ok g x (y - 1) = false → sand_dest_ok g (x - 1) (y - 1) = true →
      is_pos_static g x (y - 1) = false →
      update_sand g x y = setUpdated (swap_particles g x y (x - 1) (y - 1)) x y) ∧
    (y ≠ 0 → sand_dest_ok g x (y - 1) = false →
      (sand_dest_ok g (x - 1) (y - 1) = false ∨ is_pos_static g x (y - 1) = true) →
      sand_dest_ok g (x + 1) (y - 1) = true → is_pos_static g x (y - 1) = false →
      update_sand g x y = setUpdated (swap_particles g x y (x + 1) (y - 1)) x y) ∧
    (y ≠ 0 → sand_dest_ok g x (y - 1) = false →
      (sand_dest_ok g (x - 1) (y - 1) = false ∨ is_pos_static g x (y - 1) = true) →
      (sand_dest_ok g (x + 1) (y - 1) = false ∨ is_pos_static g x (y - 1) = true) →
      update_sand g x y = setUpdated g x y) ∧
    (y ≠ 0 → sand_dest_ok g x (y - 1) = false → is_pos_static g x (y - 1) = false →
      sand_dest_ok g (x - 1) (y - 1) = true → sand_dest_ok g (x + 1) (y - 1) = true →
      get_particle_type_pos (update_sand g x y) (x - 1) (y - 1) = MAT_SAND) := by
  have hmove : ∀ h1 : y ≠ 0, ∀ h2 : sand_dest_ok g x (y - 1) = false,
      ∀ h3 : sand_dest_ok g (x - 1) (y - 1) = true, ∀ h4 : is_pos_static g x (y - 1) = false,
      update_sand g x y = setUpdated (swap_particles g x y (x - 1) (y - 1)) x y := by
    intro h1 h2 h3 h4
    simp [update_sand, h1, h2, h3, h4]
  refine ⟨?_, ?_, ?_, ?_, ?_, ?_⟩
  · intro h1
    simp [update_sand, h1]
  · intro h1 h2
    simp [update_sand, h1, h2]
  · exact fun h1 h2 h3 h4 => hmove h1 h2 h3 h4
  · intro h1 h2 h3 h4 h5
    rcases h3 with h3 | h3
    · simp [update_sand, h1, h2, h3, h4, h5]
    · rw [h3] at h5; exact absurd h5 (by simp)
  · intro h1 h2 h3 h4
    rcases h3 with h3 | h3
    · rcases h4 with h4 | h4
      · simp [update_sand, h1, h2, h3, h4]
      · simp [update_sand, h1, h2, h3, h4]
    · rcases h4 with h4 | h4
      · simp [update_sand, h1, h2, h3, h4]
      · simp [update_sand, h1, h2, h3, h4]
  · intro h1 h2 h3 h4 h5
    rw [hmove h1 h2 h4 h3]
    have hoob_xy : ¬ oob g x y := not_oob_iff.mpr ⟨hx0, hxw, hy0, hyh⟩
    have hoob_lb : ¬ oob g (x - 1) (y - 1) := sand_dest_ok_not_oob h4
    have hne : gridIndex g x y ≠ gridIndex g (x - 1) (y - 1) := by
      unfold gridIndex
      intro heq
      ring_nf at heq
      have hw : (0 : Int) ≤ (g.width : Int) := by positivity
      omega
    rw [get_after_swap_mark hoob_xy hoob_lb hne, hmat]

/-- Witness for C3: the sand rule instantiated on a 3 x 3 grid holding a
single sand particle at (1, 1). -/
theorem C3_sand_rule_witness :
    ((1 : Int) = 0 →
      update_sand (soloSand 3 3 1 1) 1 1 = setUpdated (soloSand 3 3 1 1) 1 1) ∧
    ((1 : Int) ≠ 0 → sand_dest_ok (soloSand 3 3 1 1) 1 (1 - 1) = true →
      update_sand (soloSand 3 3 1 1) 1 1
        = setUpdated (swap_particles (soloSand 3 3 1 1) 1 1 1 (1 - 1)) 1 1) ∧
    ((1 : Int) ≠ 0 → sand_dest_ok (soloSand 3 3 1 1) 1 (1 - 1) = false →
      sand_dest_ok (soloSand 3 3 1 1) (1 - 1) (1 - 1) = true →
      is_pos_static (soloSand 3 3 1 1) 1 (1 - 1) = false →
      update_sand (soloSand 3 3 1 1) 1 1
        = setUpdated (swap_particles (soloSand 3 3 1 1) 1 1 (1 - 1) (1 - 1)) 1 1) ∧
    ((1 : Int) ≠ 0 → sand_dest_ok (soloSand 3 3 1 1) 1 (1 - 1) = false →
      (sand_dest_ok (soloSand 3 3 1 1) (1 - 1) (1 - 1) = false ∨
        is_pos_static (soloSand 3 3 1 1) 1 (1 - 1) = true) →
      sand_dest_ok (soloSand 3 3 1 1) (1 + 1) (1 - 1) = true →
      is_pos_static (soloSand 3 3 1 1) 1 (1 - 1) = false →
      update_sand (soloSand 3 3 1 1) 1 1
        = setUpdated (swap_particles (soloSand 3 3 1 1) 1 1 (1 + 1) (1 - 1)) 1 1) ∧
    ((1 : Int) ≠ 0 → sand_dest_ok (soloSand 3 3 1 1) 1 (1 - 1) = false →
      (sand_dest_ok (soloSand 3 3 1 1) (1 - 1) (1 - 1) = false ∨
        is_pos_static (soloSand 3 3 1 1) 1 (1 - 1) = true) →
      (sand_dest_ok (soloSand 3 3 1 1) (1 + 1) (1 - 1) = false ∨
        is_pos_static (soloSand 3 3 1 1) 1 (1 - 1) = true) →
      update_sand (soloSand 3 3 1 1) 1 1 = setUpdated (soloSand 3 3 1 1) 1 1) ∧
    ((1 : Int) ≠ 0 → sand_dest_ok (soloSand 3 3 1 1) 1 (1 - 1) = false →
      is_pos_static (soloSand 3 3 1 1) 1 (1 - 1) = false →
      sand_dest_ok (soloSand 3 3 1 1) (1 - 1) (1 - 1) = true →
      sand_dest_ok (soloSand 3 3 1 1) (1 + 1) (1 - 1) = true →
      get_particle_type_pos (update_sand (soloSand 3 3 1 1) 1 1) (1 - 1) (1 - 1)
        = MAT_SAND) :=
  C3_sand_rule (soloSand 3 3 1 1) 1 1 (by decide) (by decide) (by decide) (by decide)
    (by decide)

lemma igniteOil_skip (ρ : Nat → Nat) (x y : Int) (v : Rat × Rat) (nx ny : Int)
    {g : Grid} {k : Nat}
    (h1 : rawMat g nx ny ≠ some MAT_FIRE) (h2 : rawMat g nx ny ≠ some MAT_FLAME) :
    igniteOil ρ x y v nx ny (g, k) = (g, k) := by
  unfold igniteOil
  dsimp only
  cases hm : rawMat g nx ny with
  | none => rfl
  | some m =>
    cases m <;> first | exact absurd hm h1 | exact absurd hm h2 | rfl

/-- C4 amended: water attempts below, below-left, below-right, left, right
in that order with every destination qualifying when empty, gas or oil and
the diagonal falls vetoed by a static cell straight below; oil attempts
the same positions but its straight-below destination qualifies only when
empty, its diagonal destinations when empty or gas, and its lateral
destinations only when empty; and at an interior cell with no burning
neighbor update_oil is exactly that movement plus the processed mark. -/
theorem C4_liquids_amended (g : Grid) (x y : Int) (ρ : Nat → Nat) (k : Nat)
    (hx0 : 0 ≤ x) (hxw : x < (g.width : Int)) (hy0 : 0 ≤ y) (hyh : y < (g.height : Int)) :
    C4WaterCases g x y ∧ C4OilCases g x y ∧ C4OilLink g x y ρ k := by
  refine ⟨⟨?_, ?_, ?_, ?_, ?_, ?_⟩, ⟨?_, ?_, ?_, ?_, ?_, ?_⟩, ?_⟩
  · intro h1
    simp [update_water, h1]
  · intro h1 h2 h3
    simp [update_water, h1, h2, h3]
  · intro h1 h2 h3 h4
    rcases h2 with h2 | h2
    · simp [update_water, h1, h2, h3, h4]
    · rw [h2] at h4; exact absurd h4 (by simp)
  · intro h1 h2 h3 h4
    rcases h2 with h2 | h2 <;> rcases h3 with h3 | h3 <;>
      simp [update_water, h1, h2, h3, h4]
  · intro h1 h2 h3 h4 h5
    rcases h2 with h2 | h2 <;> rcases h3 with h3 | h3 <;>
      simp [update_water, h1, h2, h3, h4, h5]
  · intro h1 h2 h3 h4 h5
    rcases h2 with h2 | h2 <;> rcases h3 with h3 | h3 <;>
      simp [update_water, h1, h2, h3, h4, h5]
  · intro h1
    simp [update_oil_move, h1]
  · intro h1 h2 h3
    simp [update_oil_move, h1, h2, h3]
  · intro h1 h2 h3 h4
    rcases h2 with h2 | h2
    · simp [update_oil_move, h1, h2, h3, h4]
    · rw [h2] at h4; exact absurd h4 (by simp)
  · intro h1 h2 h3 h4
    rcases h2 with h2 | h2 <;> rcases h3 with h3 | h3 <;>
      simp [update_oil_move, h1, h2, h3, h4]
  · intro h1 h2 h3 h4 h5
    rcases h2 with h2 | h2 <;> rcases h3 with h3 | h3 <;>
      simp [update_oil_move, h1, h2, h3, h4, h5]
  · intro h1 h2 h3 h4 h5
    rcases h2 with h2 | h2 <;> rcases h3 with h3 | h3 <;>
      simp [update_oil_move, h1, h2, h3, h4, h5]
  · intro hi1 hi2 hi3 hi4 hfire
    unfold update_oil
    dsimp only
    rw [igniteOil_skip _ _ _ _ _ _ (hfire (x - 1, y - 1) (by simp [woodNeighborReads])).1
        (hfire (x - 1, y - 1) (by simp [woodNeighborReads])).2,
      igniteOil_skip _ _ _ _ _ _ (hfire (x, y - 1) (by simp [woodNeighborReads])).1
        (hfire (x, y - 1) (by simp [woodNeighborReads])).2,
      igniteOil_skip _ _ _ _ _ _ (hfire (x + 1, y - 1) (by simp [woodNeighborReads])).1
        (hfire (x + 1, y - 1) (by simp [woodNeighborReads])).2,
      igniteOil_skip _ _ _ _ _ _ (hfire (x - 1, y) (by simp [woodNeighborReads])).1
        (hfire (x - 1, y) (by simp [woodNeighborReads])).2,
      igniteOil_skip _ _ _ _ _ _ (hfire (x + 1, y) (by simp [woodNeighborReads])).1
        (hfire (x + 1, y) (by simp [woodNeighborReads])).2,
      igniteOil_skip _ _ _ _ _ _ (hfire (x - 1, y + 1) (by simp [woodNeighborReads])).1
        (hfire (x - 1, y + 1) (by simp [woodNeighborReads])).2,
      igniteOil_skip _ _ _ _ _ _ (hfire (x, y + 1) (by simp [woodNeighborReads])).1
        (hfire (x, y + 1) (by simp [woodNeighborReads])).2,
      igniteOil_skip _ _ _ _ _ _ (hfire (x + 1, y + 1) (by simp [woodNeighborReads])).1
        (hfire (x + 1, y + 1) (by simp [woodNeighborReads])).2]

/-- Witness for C4: the amended liquid rule instantiated at the interior
cell (1, 1) of the 3 x 3 oil-over-smoke grid. -/
theorem C4_liquids_amended_witness :
    C4WaterCases gC4 1 1 ∧ C4OilCases gC4 1 1 ∧ C4OilLink gC4 1 1 (fun _ => 0) 0 :=
  C4_liquids_amended gC4 1 1 (fun _ => 0) 0 (by decide) (by decide) (by decide) (by decide)

lemma decayAmount_bounds (r : Nat) (hr : r ≤ RAND_MAX) {K : Rat} (hK : 0 < K) :
    0 ≤ decayAmount r K ∧ decayAmount r K ≤ K := by
  have hRM : (0 : Rat) < (RAND_MAX : Rat) := by norm_num [RAND_MAX]
  unfold decayAmount
  rw [div_div_eq_mul_div]
  constructor
  · positivity
  · rw [div_le_iff hRM]
    have : (r : Rat) ≤ (RAND_MAX : Rat) := by exact_mod_cast hr
    nlinarith

lemma getP_modifyP {g : Grid} {x y : Int} (f : Particle → Particle) (hoob : ¬ oob g x y) :
    getP (modifyP g x y f) x y = f (getP g x y) := by
  obtain ⟨hx0, hxw, hy0, hyh⟩ := not_oob_iff.mp hoob
  obtain ⟨h0, h1⟩ := gridIndex_bounds hx0 hxw hy0 hyh
  unfold getP
  rw [gridIndex_modifyP]
  exact cells_modifyP_eq f h0 h1

lemma getP_set_particle {g : Grid} {x y : Int} (p : Particle) (hoob : ¬ oob g x y) :
    getP (set_particle g x y p) x y = p := by
  obtain ⟨hx0, hxw, hy0, hyh⟩ := not_oob_iff.mp hoob
  obtain ⟨h0, h1⟩ := gridIndex_bounds hx0 hxw hy0 hyh
  unfold getP
  rw [gridIndex_set_particle]
  exact cells_set_particle_eq p h0 h1

lemma getP_mat_modifyP {g : Grid} {x y : Int} (f : Particle → Particle) (a b : Int)
    (hf : ∀ p, (f p).mat_type = p.mat_type) :
    (getP (modifyP g x y f) a b).mat_type = (getP g a b).mat_type := by
  unfold getP
  rw [gridIndex_modifyP]
  by_cases he : (gridIndex g a b).toNat = (gridIndex g x y).toNat
  · unfold modifyP
    dsimp only
    split_ifs with hg
    · simp only [he, if_pos rfl]
      exact hf _
    · rfl
  · rw [cells_modifyP_ne f he]

lemma is_pos_empty_modifyP {g : Grid} {x y : Int} (f : Particle → Particle) (a b : Int)
    (hf : ∀ p, (f p).mat_type = p.mat_type) :
    is_pos_empty (modifyP g x y f) a b = is_pos_empty g a b := by
  unfold is_pos_empty
  by_cases hc : oob g a b
  · rw [if_pos ((oob_modifyP g x y f a b).mpr hc), if_pos hc]
  · rw [if_neg ((oob_modifyP g x y f a b).not.mpr hc), if_neg hc]
    unfold is_particle_empty
    rw [getP_mat_modifyP f a b hf]

lemma is_pos_empty_false_of_mat {g : Grid} {x y : Int} {m : Material}
    (hm : (getP g x y).mat_type = m) (hne : m ≠ MAT_EMPTY) :
    is_pos_empty g x y = false := by
  unfold is_pos_empty is_particle_empty
  split_ifs with hc
  · rfl
  · simp [hm, hne]

lemma is_pos_empty_true_of_empty {g : Grid} {x y : Int}
    (hoob : ¬ oob g x y) (hm : (getP g x y).mat_type = MAT_EMPTY) :
    is_pos_empty g x y = true := by
  unfold is_pos_empty is_particle_empty
  rw [if_neg hoob]
  simp [hm]

lemma card_filter_mod5 (n : Nat) :
    ((Finset.range (5 * n)).filter fun r => r % 5 = 0).card = n := by
  induction n with
  | zero => simp
  | succ m ih =>
    rw [show 5 * (m + 1) = 5 * m + 1 + 1 + 1 + 1 + 1 from by ring]
    rw [Finset.range_succ, Finset.filter_insert, if_neg (by omega)]
    rw [Finset.range_succ, Finset.filter_insert, if_neg (by omega)]
    rw [Finset.range_succ, Finset.filter_insert, if_neg (by omega)]
    rw [Finset.range_succ, Finset.filter_insert, if_neg (by omega)]
    rw [Finset.range_succ, Finset.filter_insert, if_pos (by omega)]
    rw [Finset.card_insert_of_not_mem (by simp), ih]

lemma not_oob_modifyP {g : Grid} {x y : Int} {f : Particle → Particle} {u v : Int}
    (h : ¬ oob g u v) : ¬ oob (modifyP g x y f) u v :=
  (oob_modifyP g x y f u v).not.mpr h

lemma not_oob_set_particle {g : Grid} {x y : Int} {p : Particle} {u v : Int}
    (h : ¬ oob g u v) : ¬ oob (set_particle g x y p) u v :=
  (oob_set_particle g x y p u v).not.mpr h

lemma getmat_of_pos {g : Grid} {x y : Int} {m : Material}
    (hoob : ¬ oob g x y) (h : get_particle_type_pos g x y = m) :
    (getP g x y).mat_type = m := by
  unfold get_particle_type_pos at h
  rwa [if_neg hoob] at h

lemma remove_particle_eq_set {g : Grid} {x y : Int}
    (hne : (getP g x y).mat_type ≠ MAT_EMPTY) :
    remove_particle g x y = set_particle g x y emptyParticle := by
  have hf : is_pos_empty g x y = false := is_pos_empty_false_of_mat rfl hne
  unfold remove_particle
  rw [hf]
  simp

lemma remove_mark_mat (g' : Grid) (x y : Int) (hoob : ¬ oob g' x y)
    (hne : (getP g' x y).mat_type ≠ MAT_EMPTY) :
    get_particle_type_pos (setUpdated (remove_particle g' x y) x y) x y = MAT_EMPTY := by
  rw [remove_particle_eq_set hne]
  unfold get_particle_type_pos setUpdated
  rw [if_neg (not_oob_modifyP (not_oob_set_particle hoob))]
  rw [getP_modifyP _ (not_oob_set_particle hoob), getP_set_particle _ hoob]
  rfl

lemma expiry_tail (g' : Grid) (x y : Int) (r2 : Nat) (hoob : ¬ oob g' x y)
    (hmat : (getP g' x y).mat_type = MAT_FIRE) :
    get_particle_type_pos
      (setUpdated
        (if r2 % 5 = 0 then add_particle junk0 (remove_particle g' x y) x y MAT_SMOKE
         else remove_particle g' x y) x y) x y
      = (if r2 % 5 = 0 then MAT_SMOKE else MAT_EMPTY) := by
  have hne : (getP g' x y).mat_type ≠ MAT_EMPTY := by rw [hmat]; decide
  by_cases hr : r2 % 5 = 0
  · rw [if_pos hr, if_pos hr, remove_particle_eq_set hne]
    have hoob1 : ¬ oob (set_particle g' x y emptyParticle) x y := not_oob_set_particle hoob
    have hadd : add_particle junk0 (set_particle g' x y emptyParticle) x y MAT_SMOKE
        = set_particle (set_particle g' x y emptyParticle) x y
            (registryParticle junk0 MAT_SMOKE) := by
      unfold add_particle
      rw [is_pos_empty_true_of_empty hoob1 (by rw [getP_set_particle _ hoob]; rfl)]
      simp
    rw [hadd]
    unfold get_particle_type_pos setUpdated
    rw [if_neg (not_oob_modifyP (not_oob_set_particle hoob1))]
    rw [getP_modifyP _ (not_oob_set_particle hoob1), getP_set_particle _ hoob1]
    rfl
  · rw [if_neg hr, if_neg hr]
    exact remove_mark_mat g' x y hoob hne

lemma update_fire_expiry (g : Grid) (x y : Int) (ρ : Nat → Nat) (k : Nat)
    (hoob : ¬ oob g x y)
    (hmat : (getP g x y).mat_type = MAT_FIRE)
    (hL : (getP g x y).life_time - decayAmount (ρ (k + 1)) (3/20) ≤ 0) :
    get_particle_type_pos (update_fire ρ g x y k).1 x y
      = (if ρ (k + 2) % 5 = 0 then MAT_SMOKE else MAT_EMPTY) ∧
    (update_fire ρ g x y k).2 = k + 3 := by
  unfold update_fire
  dsimp only
  rw [getP_modifyP _ hoob]
  dsimp only
  rw [if_pos hL]
  refine ⟨?_, rfl⟩
  refine expiry_tail _ x y (ρ (k + 2)) (not_oob_modifyP (not_oob_modifyP hoob)) ?_
  rw [getP_mat_modifyP, getP_mat_modifyP]
  · exact hmat
  · intro p; rfl
  · intro p; rfl

/-- C5: the finite-life materials decay as claimed: smoke, fire and flame
decrement life_time by the scaled rand() draw, which ranges over exactly
[0, K] for K = 0.1, 0.15, 0.25; a cell reaching life_time at most zero is
replaced by Empty, except that expiring fire leaves fresh smoke exactly
when its extra rand() draw is divisible by 5 (one outcome in every five
consecutive rand() values, the 1-in-5 chance). -/
theorem C5_decay_rules (g : Grid) (x y : Int) (ρ : Nat → Nat) (k : Nat)
    (hx0 : 0 ≤ x) (hxw : x < (g.width : Int)) (hy0 : 0 ≤ y) (hyh : y < (g.height : Int)) :
    C5Conclusion g x y ρ k := by
  have hoobg : ¬ oob g x y := not_oob_iff.mpr ⟨hx0, hxw, hy0, hyh⟩
  have hyne : ¬ y = (g.height : Int) := by omega
  refine ⟨?_, ?_, ?_, ?_, ?_, ?_, ?_, ?_⟩
  · intro r hr
    exact ⟨decayAmount_bounds r hr (by norm_num), decayAmount_bounds r hr (by norm_num),
      decayAmount_bounds r hr (by norm_num)⟩
  · -- smoke expiry
    intro hm hL
    have hmat := getmat_of_pos hoobg hm
    have hstep : update_smoke ρ g x y k
        = (setUpdated (remove_particle (modifyP g x y fun p =>
            { p with life_time := (getP g x y).life_time - decayAmount (ρ k) (1/10) }) x y)
            x y, k + 1) := by
      unfold update_smoke
      dsimp only
      rw [if_neg hyne, if_pos hL]
    rw [hstep]
    refine ⟨?_, rfl⟩
    refine remove_mark_mat _ x y (not_oob_modifyP hoobg) ?_
    rw [getP_mat_modifyP]
    · rw [hmat]; decide
    · intro p; rfl
  · -- smoke alive and boxed in
    intro hm hL h1 h2 h3 h4 h5
    have hmat := getmat_of_pos hoobg hm
    have hpres : ∀ a b : Int,
        is_pos_empty (modifyP g x y fun p =>
          { p with life_time := (getP g x y).life_time - decayAmount (ρ k) (1/10) }) a b
          = is_pos_empty g a b :=
      fun a b => is_pos_empty_modifyP _ a b (fun p => rfl)
    have hstep : update_smoke ρ g x y k
        = (setUpdated (modifyP g x y fun p =>
            { p with life_time := (getP g x y).life_time - decayAmount (ρ k) (1/10) }) x y,
           k + 1) := by
      unfold update_smoke
      dsimp only
      rw [if_neg hyne, if_neg (not_le.mpr hL)]
      rw [(hpres x (y + 1)).trans h1, (hpres (x - 1) (y + 1)).trans h2,
        (hpres (x + 1) (y + 1)).trans h3, (hpres (x - 1) y).trans h4,
        (hpres (x + 1) y).trans h5]
      simp
    rw [hstep]
    refine ⟨?_, ?_, rfl⟩
    · unfold setUpdated
      rw [getP_modifyP _ (not_oob_modifyP hoobg)]
      dsimp only
      rw [getP_mat_modifyP]
      · exact hmat
      · intro p; rfl
    · unfold setUpdated
      rw [getP_modifyP _ (not_oob_modifyP hoobg)]
      dsimp only
      rw [getP_modifyP _ hoobg]
  · -- fire expiry
    intro hm hL
    exact update_fire_expiry g x y ρ k hoobg (getmat_of_pos hoobg hm) hL
  · -- fire expiry smoke count
    intro hm hL n
    have hkey : ∀ r ∈ Finset.range (5 * n),
        ((get_particle_type_pos
          (update_fire (fun i => if i = k + 2 then r else ρ i) g x y k).1 x y
          = MAT_SMOKE) ↔ (r % 5 = 0)) := by
      intro r _
      have hL' : (getP g x y).life_time
          - decayAmount ((fun i => if i = k + 2 then r else ρ i) (k + 1)) (3/20) ≤ 0 := by
        show (getP g x y).life_time
          - decayAmount (if k + 1 = k + 2 then r else ρ (k + 1)) (3/20) ≤ 0
        rw [if_neg (by omega : ¬ k + 1 = k + 2)]
        exact hL
      have hexp := update_fire_expiry g x y (fun i => if i = k + 2 then r else ρ i) k hoobg
        (getmat_of_pos hoobg hm) hL'
      rw [hexp.1]
      show (if (if k + 2 = k + 2 then r else ρ (k + 2)) % 5 = 0
        then MAT_SMOKE else MAT_EMPTY) = MAT_SMOKE ↔ r % 5 = 0
      rw [if_pos rfl]
      split_ifs with hsp
      · simp [hsp]
      · simp [hsp]
    rw [Finset.filter_congr hkey]
    exact card_filter_mod5 n
  · -- fire alive
    intro hm hL
    have hmat := getmat_of_pos hoobg hm
    have hstep : update_fire ρ g x y k
        = (modifyP (modifyP g x y fun p =>
            { p with color :=
                (if ρ k % 4 = 0 then ⟨255, 0, 0, 255⟩
                 else if ρ k % 4 = 1 then ⟨192, 0, 0, 255⟩
                 else if ρ k % 4 = 2 then ⟨160, 0, 0, 255⟩
                 else if ρ k % 4 = 3 then ⟨64, 0, 0, 255⟩
                 else p.color) }) x y fun p =>
            { p with life_time :=
                (getP g x y).life_time - decayAmount (ρ (k + 1)) (3/20) }, k + 2) := by
      unfold update_fire
      dsimp only
      rw [getP_modifyP _ hoobg]
      dsimp only
      rw [if_neg (not_le.mpr hL)]
    rw [hstep]
    refine ⟨?_, ?_, rfl⟩
    · rw [getP_modifyP _ (not_oob_modifyP hoobg)]
      dsimp only
      rw [getP_mat_modifyP]
      · exact hmat
      · intro p; rfl
    · rw [getP_modifyP _ (not_oob_modifyP hoobg)]
  · -- flame expiry
    intro hm hL
    have hmat := getmat_of_pos hoobg hm
    have hstep : update_flame ρ g x y k
        = (setUpdated (remove_particle (modifyP g x y fun p =>
            { p with life_time := (getP g x y).life_time - decayAmount (ρ k) (1/4) }) x y)
            x y, k + 1) := by
      unfold update_flame
      dsimp only
      rw [if_pos hL]
    rw [hstep]
    refine ⟨?_, rfl⟩
    refine remove_mark_mat _ x y (not_oob_modifyP hoobg) ?_
    rw [getP_mat_modifyP]
    · rw [hmat]; decide
    · intro p; rfl
  · -- flame alive and boxed in
    intro hm hL h1 h2 h3 h4 h5
    have hmat := getmat_of_pos hoobg hm
    have hpres : ∀ a b : Int,
        is_pos_empty (modifyP g x y fun p =>
          { p with life_time := (getP g x y).life_time - decayAmount (ρ k) (1/4) }) a b
          = is_pos_empty g a b :=
      fun a b => is_pos_empty_modifyP _ a b (fun p => rfl)
    have hstep : update_flame ρ g x y k
        = (setUpdated (modifyP g x y fun p =>
            { p with life_time := (getP g x y).life_time - decayAmount (ρ k) (1/4) }) x y,
           k + 1) := by
      unfold update_flame
      dsimp only
      rw [if_neg (not_le.mpr hL)]
      rw [(hpres x (y + 1)).trans h1, (hpres (x - 1) (y + 1)).trans h2,
        (hpres (x + 1) (y + 1)).trans h3, (hpres (x - 1) y).trans h4,
        (hpres (x + 1) y).trans h5]
      simp
    rw [hstep]
    refine ⟨?_, ?_, rfl⟩
    · unfold setUpdated
      rw [getP_modifyP _ (not_oob_modifyP hoobg)]
      dsimp only
      rw [getP_mat_modifyP]
      · exact hmat
      · intro p; rfl
    · unfold setUpdated
      rw [getP_modifyP _ (not_oob_modifyP hoobg)]
      dsimp only
      rw [getP_modifyP _ hoobg]

/-- Witness for C5: the decay rules instantiated on a 1 x 1 grid holding a
single default smoke particle, with the all-zero rand() stream. -/
theorem C5_decay_rules_witness : C5Conclusion (oneCell smokeParticle) 0 0 (fun _ => 0) 0 :=
  C5_decay_rules (oneCell smokeParticle) 0 0 (fun _ => 0) 0 (by decide) (by decide)
    (by decide) (by decide)

lemma grid_ext {g1 g2 : Grid} (hw : g1.width = g2.width) (hh : g1.height = g2.height)
    (hc : g1.cells = g2.cells) : g1 = g2 := by
  obtain ⟨w1, h1, c1⟩ := g1
  obtain ⟨w2, h2, c2⟩ := g2
  dsimp only at hw hh hc
  subst hw hh hc
  rfl

lemma new_grid_eq_rowFill_zero (w h : Nat) : new_grid w h = rowFill w h 0 := by
  refine grid_ext rfl rfl ?_
  funext o
  unfold new_grid rowFill
  dsimp only
  rw [if_neg (Nat.not_lt_zero o)]

lemma addRow (junk : Junk) (w h j : Nat) (hw : 6 ≤ w) (hh : 1 ≤ h) (hj : j < 6) :
    line_edit junk MAT_SAND (rowFill w h j) (j : Int) 0 = rowFill w h (j + 1) := by
  have hoob : ¬ oob (rowFill w h j) (j : Int) 0 := by
    simp only [not_oob_iff, rowFill]
    refine ⟨by positivity, by exact_mod_cast by omega, le_refl 0, by exact_mod_cast hh⟩
  have hidx : gridIndex (rowFill w h j) (j : Int) 0 = (j : Int) := by
    unfold gridIndex
    ring
  have h0 : 0 ≤ gridIndex (rowFill w h j) (j : Int) 0 := by rw [hidx]; positivity
  have h1 : gridIndex (rowFill w h j) (j : Int) 0
      < (((rowFill w h j).width * (rowFill w h j).height : Nat) : Int) := by
    rw [hidx]
    show (j : Int) < ((w * h : Nat) : Int)
    have : j < w * h := lt_of_lt_of_le (lt_of_lt_of_le hj hw) (Nat.le_mul_of_pos_right w hh)
    exact_mod_cast this
  have hmat : (getP (rowFill w h j) (j : Int) 0).mat_type = MAT_EMPTY := by
    unfold getP
    rw [hidx, Int.toNat_natCast]
    unfold rowFill
    dsimp only
    rw [if_neg (lt_irrefl j)]
    rfl
  have hemp := is_pos_empty_true_of_empty hoob hmat
  unfold line_edit
  rw [if_neg (by decide : ¬ (MAT_SAND = MAT_EMPTY))]
  unfold add_particle
  rw [hemp]
  rw [if_neg (by simp)]
  refine grid_ext (set_particle_width _ _ _ _) (set_particle_height _ _ _ _) ?_
  funext o
  by_cases ho : o = j
  · have e := cells_set_particle_eq (g := rowFill w h j) (x := (j : Int)) (y := 0)
      (registryParticle junk MAT_SAND) h0 h1
    rw [hidx, Int.toNat_natCast] at e
    rw [ho, e]
    unfold rowFill
    dsimp only
    rw [if_pos (by omega)]
    rfl
  · have e := cells_set_particle_ne (g := rowFill w h j) (x := (j : Int)) (y := 0)
      (registryParticle junk MAT_SAND) (o := o) (by rw [hidx, Int.toNat_natCast]; exact ho)
    rw [e]
    show (rowFill w h j).cells o = (rowFill w h (j + 1)).cells o
    unfold rowFill
    dsimp only
    split_ifs <;> first | rfl | omega

lemma row_loop (junk : Junk) (w h : Nat) (hw : 6 ≤ w) (hh : 1 ≤ h) :
    ∀ n j : Nat, j + n = 6 → j ≤ 5 →
      line_loop junk MAT_SAND 5 0 5 0 1 (-1) n (rowFill w h j) (j : Int) 0 5
        = rowFill w h 6 := by
  intro n
  induction n with
  | zero => intro j hjn hj5; omega
  | succ m ih =>
    intro j hjn hj5
    simp only [line_loop]
    rw [addRow junk w h j hw hh (by omega)]
    by_cases hj5' : j = 5
    · subst hj5'
      rw [if_pos (by norm_num)]
    · rw [if_neg (by
        rintro ⟨hc, -⟩
        exact hj5' (by exact_mod_cast hc))]
      rw [if_pos (by norm_num : (2 * 5 : Int) ≥ 0)]
      rw [if_neg (by
        intro hc
        exact hj5' (by exact_mod_cast hc))]
      rw [if_neg (by norm_num : ¬ (2 * 5 : Int) ≤ 5)]
      rw [show ((j : Int) + 1) = ((j + 1 : Nat) : Int) from by push_cast; ring]
      rw [show ((5 : Int) + 0) = 5 from by norm_num]
      exact ih (j + 1) (by omega) (by omega)

lemma stroke_row (junk : Junk) (w h : Nat) (hw : 6 ≤ w) (hh : 1 ≤ h) :
    particle_line junk (new_grid w h) 0 0 5 0 MAT_SAND = rowFill w h 6 := by
  rw [new_grid_eq_rowFill_zero w h]
  unfold particle_line
  dsimp only
  rw [if_neg (show ¬ ((0 : Int) > (((rowFill w h 0).width : Nat) : Int)) from by
        show ¬ ((0 : Int) > ((w : Nat) : Int)); omega),
    if_neg (show ¬ ((5 : Int) > (((rowFill w h 0).width : Nat) : Int)) from by
        show ¬ ((5 : Int) > ((w : Nat) : Int)); omega),
    if_neg (show ¬ ((0 : Int) > (((rowFill w h 0).height : Nat) : Int)) from by
        show ¬ ((0 : Int) > ((h : Nat) : Int)); omega)]
  rw [show |(5 : Int) - 0| = 5 from by norm_num]
  rw [if_pos (by norm_num : (0 : Int) < 5)]
  rw [show -|(0 : Int) - 0| = 0 from by norm_num]
  rw [if_neg (lt_irrefl (0 : Int))]
  rw [show (5 : Int) + 0 = 5 from by norm_num]
  rw [show ((5 : Int) - 0).toNat + 1 = 6 from by decide]
  exact row_loop junk w h hw hh 6 0 rfl (by norm_num)

/-- C8: the stroke rasterizer applies its edit to the clicked cell even
when the previous and current points coincide (a coincident call is
exactly one add or remove at that cell), and on an all-empty grid at least
6 wide the call particle_line(grid, 0,0, 5,0, Sand) makes exactly the six
cells with x in [0,5] on the bottom row sand and leaves every other
in-range cell empty. -/
theorem C8_stroke_rasterizer (junk : Junk) (g : Grid) (x y : Int) (m : Material) (w h : Nat)
    (hx : x ≤ (g.width : Int)) (hy : y ≤ (g.height : Int)) (hw : 6 ≤ w) (hh : 1 ≤ h) :
    (particle_line junk g x y x y m
      = if m = MAT_EMPTY then remove_particle g x y else add_particle junk g x y m) ∧
    (∀ a b : Int, 0 ≤ a → a < (w : Int) → 0 ≤ b → b < (h : Int) →
      get_particle_type_pos (particle_line junk (new_grid w h) 0 0 5 0 MAT_SAND) a b
        = if b = 0 ∧ a ≤ 5 then MAT_SAND else MAT_EMPTY) := by
  constructor
  · unfold particle_line
    dsimp only
    rw [if_neg (not_lt.mpr hx), if_neg (not_lt.mpr hy)]
    rw [sub_self, sub_self, abs_zero, neg_zero, add_zero]
    rw [if_neg (lt_irrefl x), if_neg (lt_irrefl y)]
    rw [show ((0 : Int) - 0).toNat + 1 = 0 + 1 from by decide]
    simp only [line_loop]
    rw [if_pos (by simp)]
    unfold line_edit
    rfl
  · intro a b ha0 haw hb0 hbh
    rw [stroke_row junk w h hw hh]
    unfold get_particle_type_pos
    rw [if_neg (not_oob_iff.mpr ⟨ha0, by exact haw, hb0, by exact hbh⟩)]
    unfold getP gridIndex rowFill
    dsimp only
    by_cases hc : b = 0 ∧ a ≤ 5
    · rw [if_pos (by
        obtain ⟨hb, ha5⟩ := hc
        subst hb
        simp only [zero_mul, zero_add]
        omega), if_pos hc]
      rfl
    · rw [if_neg ?side, if_neg hc]
      · rfl
      case side =>
        by_cases hb : b = 0
        · subst hb
          simp only [zero_mul, zero_add]
          intro hlt
          exact hc ⟨rfl, by omega⟩
        · have hb1 : 1 ≤ b := by omega
          have hle : ((w : Nat) : Int) ≤ b * ((w : Nat) : Int) :=
            le_mul_of_one_le_left (by positivity) hb1
          have hw6 : (6 : Int) ≤ ((w : Nat) : Int) := by exact_mod_cast hw
          have key : (6 : Int) ≤ b * ((w : Nat) : Int) + a := by linarith
          have hnn : (0 : Int) ≤ b * ((w : Nat) : Int) + a := by linarith
          have h6 : 6 ≤ (b * ((w : Nat) : Int) + a).toNat :=
            (Int.le_toNat hnn).mpr (by exact_mod_cast key)
          exact not_lt.mpr h6

/-- Witness for C8: the stroke contract instantiated with a coincident
water edit at (3, 1) and the six-cell sand stroke, both on a 7 x 2
grid. -/
theorem C8_stroke_rasterizer_witness :
    (particle_line junk0 (new_grid 7 2) 3 1 3 1 MAT_WATER
      = if MAT_WATER = MAT_EMPTY then remove_particle (new_grid 7 2) 3 1
        else add_particle junk0 (new_grid 7 2) 3 1 MAT_WATER) ∧
    (∀ a b : Int, 0 ≤ a → a < ((7 : Nat) : Int) → 0 ≤ b → b < ((2 : Nat) : Int) →
      get_particle_type_pos (particle_line junk0 (new_grid 7 2) 0 0 5 0 MAT_SAND) a b
        = if b = 0 ∧ a ≤ 5 then MAT_SAND else MAT_EMPTY) :=
  C8_stroke_rasterizer junk0 (new_grid 7 2) 3 1 MAT_WATER 7 2 (by decide) (by decide)
    (by decide) (by decide)

lemma offset_lt (w h x y : Nat) (hx : x < w) (hyh : y < h) : y * w + x < w * h := by
  calc y * w + x < y * w + w := by omega
    _ = (y + 1) * w := by ring
    _ ≤ h * w := Nat.mul_le_mul_right w (by omega)
    _ = w * h := Nat.mul_comm h w

lemma gridIndex_coords {g : Grid} {w : Nat} (hgw : g.width = w) (o : Nat) :
    gridIndex g ((o % w : Nat) : Int) ((o / w : Nat) : Int) = ((o : Nat) : Int) := by
  unfold gridIndex
  rw [hgw]
  have hmm : (o / w) * w + o % w = o := Nat.div_add_mod' o w
  exact_mod_cast hmm

lemma getP_coords {g : Grid} {w : Nat} (hgw : g.width = w) (o : Nat) :
    getP g ((o % w : Nat) : Int) ((o / w : Nat) : Int) = g.cells o := by
  unfold getP
  rw [gridIndex_coords hgw, Int.toNat_natCast]

lemma simStep_not_updated (ρ : Nat → Nat) (w : Nat) (g : Grid) (k o : Nat)
    (hflag : (g.cells o).has_been_updated = false) :
    simStep ρ w (g, k) o = dispatch ρ g ((o % w : Nat) : Int) ((o / w : Nat) : Int) k := by
  unfold simStep
  rw [hflag]
  simp

lemma dispatch_uf_empty (ρ : Nat → Nat) (g : Grid) (x y : Int) (k : Nat)
    (huf : (getP g x y).update_func = UF_EMPTY) :
    dispatch ρ g x y k = (update_empty g x y, k) := by
  unfold dispatch
  rw [huf]

lemma dispatch_uf_sand (ρ : Nat → Nat) (g : Grid) (x y : Int) (k : Nat)
    (huf : (getP g x y).update_func = UF_SAND) :
    dispatch ρ g x y k = (update_sand g x y, k) := by
  unfold dispatch
  rw [huf]

lemma scanA_cells_lo (w h x y n o : Nat) (hne : o ≠ y * w + x) (ho : o < n) :
    (scanA w h x y n).cells o = emptyVisited := by
  unfold scanA
  dsimp only
  rw [if_neg hne, if_pos ho]

lemma scanA_cells_sand (w h x y n : Nat) :
    (scanA w h x y n).cells (y * w + x) = sandParticle := by
  unfold scanA
  dsimp only
  rw [if_pos rfl]

lemma scanA_cells_hi (w h x y n o : Nat) (hne : o ≠ y * w + x) (ho : ¬ o < n) :
    (scanA w h x y n).cells o = emptyParticle := by
  unfold scanA
  dsimp only
  rw [if_neg hne, if_neg ho]

lemma scanA_step (ρ : Nat → Nat) (w h x y n k : Nat)
    (hx : x < w) (hyh : y < h) (hn : n < y * w + x) :
    simStep ρ w (scanA w h x y n, k) n = (scanA w h x y (n + 1), k) := by
  have hnwh : n < w * h := lt_trans hn (offset_lt w h x y hx hyh)
  have hflag : ((scanA w h x y n).cells n).has_been_updated = false := by
    rw [scanA_cells_hi w h x y n n (by omega) (lt_irrefl n)]
    rfl
  rw [simStep_not_updated ρ w _ k n hflag]
  rw [dispatch_uf_empty ρ _ _ _ k (by
    rw [getP_coords (w := w) rfl n, scanA_cells_hi w h x y n n (by omega) (lt_irrefl n)]
    rfl)]
  have hgi : gridIndex (scanA w h x y n) ((n % w : Nat) : Int) ((n / w : Nat) : Int)
      = ((n : Nat) : Int) := gridIndex_coords (w := w) rfl n
  refine Prod.ext ?_ rfl
  dsimp only
  unfold update_empty setUpdated
  refine grid_ext (modifyP_width _ _ _ _) (modifyP_height _ _ _ _) ?_
  funext o
  by_cases ho : o = n
  · have e := cells_modifyP_eq (g := scanA w h x y n)
      (x := ((n % w : Nat) : Int)) (y := ((n / w : Nat) : Int))
      (fun p => { p with has_been_updated := true })
      (by rw [hgi]; positivity)
      (by rw [hgi]; exact_mod_cast hnwh)
    rw [hgi, Int.toNat_natCast] at e
    rw [ho, e, scanA_cells_hi w h x y n n (by omega) (lt_irrefl n),
      scanA_cells_lo w h x y (n + 1) n (by omega) (by omega)]
    rfl
  · rw [cells_modifyP_ne _ (by rw [hgi, Int.toNat_natCast]; exact ho)]
    unfold scanA
    dsimp only
    split_ifs <;> first | rfl | omega

lemma scanB_cells_sand (w h x y n : Nat) :
    (scanB w h x y n).cells ((y - 1) * w + x) = sandMoved := by
  unfold scanB
  dsimp only
  rw [if_pos rfl]

lemma scanB_cells_lo (w h x y n o : Nat) (hne : o ≠ (y - 1) * w + x) (ho : o < n) :
    (scanB w h x y n).cells o = emptyVisited := by
  unfold scanB
  dsimp only
  rw [if_neg hne, if_pos ho]

lemma scanB_cells_hi (w h x y n o : Nat) (hne : o ≠ (y - 1) * w + x) (ho : ¬ o < n) :
    (scanB w h x y n).cells o = emptyParticle := by
  unfold scanB
  dsimp only
  rw [if_neg hne, if_neg ho]

lemma scanA_sand_step (ρ : Nat → Nat) (w h x y k : Nat)
    (hx : x < w) (hy0 : 0 < y) (hyh : y < h) :
    simStep ρ w (scanA w h x y (y * w + x), k) (y * w + x)
      = (scanB w h x y (y * w + x + 1), k) := by
  have hw0 : 0 < w := by omega
  have hmul : (y - 1) * w < y * w := (Nat.mul_lt_mul_right hw0).mpr (by omega)
  have hswh : y * w + x < w * h := offset_lt w h x y hx hyh
  have hflag : ((scanA w h x y (y * w + x)).cells (y * w + x)).has_been_updated = false := by
    rw [scanA_cells_sand]
    rfl
  rw [simStep_not_updated ρ w _ k _ hflag]
  have hmod : (y * w + x) % w = x := by
    rw [Nat.mul_comm y w, Nat.mul_add_mod]
    exact Nat.mod_eq_of_lt hx
  have hdiv : (y * w + x) / w = y := by
    rw [Nat.mul_comm, Nat.mul_add_div hw0, Nat.div_eq_of_lt hx, Nat.add_zero]
  rw [hmod, hdiv]
  have hgi1 : gridIndex (scanA w h x y (y * w + x)) ((x : Nat) : Int) ((y : Nat) : Int)
      = ((y * w + x : Nat) : Int) := by
    show ((y : Nat) : Int) * ((w : Nat) : Int) + ((x : Nat) : Int) = _
    push_cast
    ring
  have hgi2 : gridIndex (scanA w h x y (y * w + x)) ((x : Nat) : Int) (((y : Nat) : Int) - 1)
      = (((y - 1) * w + x : Nat) : Int) := by
    show (((y : Nat) : Int) - 1) * ((w : Nat) : Int) + ((x : Nat) : Int) = _
    rw [Nat.cast_add, Nat.cast_mul, Nat.cast_sub (by omega : 1 ≤ y)]
    push_cast
    ring
  have hgetxy : getP (scanA w h x y (y * w + x)) ((x : Nat) : Int) ((y : Nat) : Int)
      = (scanA w h x y (y * w + x)).cells (y * w + x) := by
    unfold getP
    rw [hgi1, Int.toNat_natCast]
  rw [dispatch_uf_sand ρ _ _ _ k (by rw [hgetxy, scanA_cells_sand]; rfl)]
  refine Prod.ext ?_ rfl
  dsimp only
  unfold update_sand
  dsimp only
  rw [if_neg (by omega : ¬ ((y : Nat) : Int) = 0)]
  have hoob_b : ¬ oob (scanA w h x y (y * w + x)) ((x : Nat) : Int) (((y : Nat) : Int) - 1) := by
    rw [not_oob_iff]
    refine ⟨by positivity, by exact_mod_cast hx, by omega, ?_⟩
    show ((y : Nat) : Int) - 1 < ((h : Nat) : Int)
    omega
  have hgetb : getP (scanA w h x y (y * w + x)) ((x : Nat) : Int) (((y : Nat) : Int) - 1)
      = (scanA w h x y (y * w + x)).cells ((y - 1) * w + x) := by
    unfold getP
    rw [hgi2, Int.toNat_natCast]
  have hq : sand_dest_ok (scanA w h x y (y * w + x)) ((x : Nat) : Int)
      (((y : Nat) : Int) - 1) = true := by
    unfold sand_dest_ok
    rw [is_pos_empty_true_of_empty hoob_b (by
      rw [hgetb,
        scanA_cells_lo w h x y (y * w + x) ((y - 1) * w + x) (by omega) (by omega)]
      rfl)]
    simp
  rw [if_pos hq]
  unfold setUpdated
  refine grid_ext (by rw [modifyP_width, swap_particles_width]; rfl)
    (by rw [modifyP_height, swap_particles_height]; rfl) ?_
  funext o
  have hb1 : 0 ≤ gridIndex (scanA w h x y (y * w + x)) ((x : Nat) : Int) ((y : Nat) : Int) := by
    rw [hgi1]; positivity
  have hb2 : gridIndex (scanA w h x y (y * w + x)) ((x : Nat) : Int) ((y : Nat) : Int)
      < (((scanA w h x y (y * w + x)).width * (scanA w h x y (y * w + x)).height : Nat) : Int) := by
    rw [hgi1]
    show _ < ((w * h : Nat) : Int)
    exact_mod_cast hswh
  have hb3 : 0 ≤ gridIndex (scanA w h x y (y * w + x)) ((x : Nat) : Int)
      (((y : Nat) : Int) - 1) := by
    rw [hgi2]; positivity
  have hb4 : gridIndex (scanA w h x y (y * w + x)) ((x : Nat) : Int) (((y : Nat) : Int) - 1)
      < (((scanA w h x y (y * w + x)).width * (scanA w h x y (y * w + x)).height : Nat) : Int) := by
    rw [hgi2]
    show _ < ((w * h : Nat) : Int)
    exact_mod_cast offset_lt w h x (y - 1) hx (by omega)
  by_cases ho1 : o = y * w + x
  · have e := cells_modifyP_eq
      (g := swap_particles (scanA w h x y (y * w + x)) ((x : Nat) : Int) ((y : Nat) : Int)
        ((x : Nat) : Int) (((y : Nat) : Int) - 1))
      (x := ((x : Nat) : Int)) (y := ((y : Nat) : Int))
      (fun p => { p with has_been_updated := true })
      (by rw [gridIndex_swap]; exact hb1)
      (by rw [gridIndex_swap, swap_particles_width, swap_particles_height]; exact hb2)
    rw [gridIndex_swap, hgi1, Int.toNat_natCast] at e
    rw [ho1, e]
    have e2 := cells_swap_fst (g := scanA w h x y (y * w + x))
      (x := ((x : Nat) : Int)) (y := ((y : Nat) : Int))
      (a := ((x : Nat) : Int)) (b := (((y : Nat) : Int) - 1)) hb1 hb2 hb3 hb4
    rw [hgi1, hgi2, Int.toNat_natCast, Int.toNat_natCast] at e2
    rw [e2, scanA_cells_lo w h x y (y * w + x) ((y - 1) * w + x) (by omega) (by omega)]
    rw [scanB_cells_lo w h x y (y * w + x + 1) (y * w + x) (by omega) (by omega)]
    rfl
  · have e := cells_modifyP_ne
      (g := swap_particles (scanA w h x y (y * w + x)) ((x : Nat) : Int) ((y : Nat) : Int)
        ((x : Nat) : Int) (((y : Nat) : Int) - 1))
      (x := ((x : Nat) : Int)) (y := ((y : Nat) : Int))
      (fun p => { p with has_been_updated := true })
      (o := o) (by rw [gridIndex_swap, hgi1, Int.toNat_natCast]; exact ho1)
    rw [e]
    by_cases ho2 : o = (y - 1) * w + x
    · have e2 := cells_swap_snd (g := scanA w h x y (y * w + x))
        (x := ((x : Nat) : Int)) (y := ((y : Nat) : Int))
        (a := ((x : Nat) : Int)) (b := (((y : Nat) : Int) - 1)) hb1 hb2 hb3 hb4
        (by rw [hgi1, hgi2]; intro hc; have := Nat.cast_injective hc; omega)
      rw [hgi1, hgi2, Int.toNat_natCast, Int.toNat_natCast] at e2
      rw [ho2, e2, scanA_cells_sand, scanB_cells_sand]
      rfl
    · have e2 := cells_swap_other (g := scanA w h x y (y * w + x))
        (x := ((x : Nat) : Int)) (y := ((y : Nat) : Int))
        (a := ((x : Nat) : Int)) (b := (((y : Nat) : Int) - 1))
        (o := o)
        (by rw [hgi1, Int.toNat_natCast]; exact ho1)
        (by rw [hgi2, Int.toNat_natCast]; exact ho2)
      rw [e2]
      by_cases ho3 : o < y * w + x
      · rw [scanA_cells_lo w h x y (y * w + x) o ho1 ho3,
          scanB_cells_lo w h x y (y * w + x + 1) o ho2 (by omega)]
      · rw [scanA_cells_hi w h x y (y * w + x) o ho1 ho3,
          scanB_cells_hi w h x y (y * w + x + 1) o ho2 (by omega)]

lemma scanB_step (ρ : Nat → Nat) (w h x y n k : Nat)
    (hx : x < w) (hy0 : 0 < y) (hyh : y < h)
    (hn1 : y * w + x < n) (hn2 : n < w * h) :
    simStep ρ w (scanB w h x y n, k) n = (scanB w h x y (n + 1), k) := by
  have hw0 : 0 < w := by omega
  have hmul : (y - 1) * w < y * w := (Nat.mul_lt_mul_right hw0).mpr (by omega)
  have hflag : ((scanB w h x y n).cells n).has_been_updated = false := by
    rw [scanB_cells_hi w h x y n n (by omega) (lt_irrefl n)]
    rfl
  rw [simStep_not_updated ρ w _ k n hflag]
  rw [dispatch_uf_empty ρ _ _ _ k (by
    rw [getP_coords (w := w) rfl n, scanB_cells_hi w h x y n n (by omega) (lt_irrefl n)]
    rfl)]
  have hgi : gridIndex (scanB w h x y n) ((n % w : Nat) : Int) ((n / w : Nat) : Int)
      = ((n : Nat) : Int) := gridIndex_coords (w := w) rfl n
  refine Prod.ext ?_ rfl
  dsimp only
  unfold update_empty setUpdated
  refine grid_ext (modifyP_width _ _ _ _) (modifyP_height _ _ _ _) ?_
  funext o
  by_cases ho : o = n
  · have e := cells_modifyP_eq (g := scanB w h x y n)
      (x := ((n % w : Nat) : Int)) (y := ((n / w : Nat) : Int))
      (fun p => { p with has_been_updated := true })
      (by rw [hgi]; positivity)
      (by rw [hgi]; exact_mod_cast hn2)
    rw [hgi, Int.toNat_natCast] at e
    rw [ho, e, scanB_cells_hi w h x y n n (by omega) (lt_irrefl n),
      scanB_cells_lo w h x y (n + 1) n (by omega) (by omega)]
    rfl
  · rw [cells_modifyP_ne _ (by rw [hgi, Int.toNat_natCast]; exact ho)]
    unfold scanB
    dsimp only
    split_ifs <;> first | rfl | omega

lemma scan_fold (ρ : Nat → Nat) (w h x y k : Nat)
    (hx : x < w) (hy0 : 0 < y) (hyh : y < h) :
    ∀ n, n ≤ w * h →
      (List.range n).foldl (simStep ρ w) (scanA w h x y 0, k)
        = if n ≤ y * w + x then (scanA w h x y n, k) else (scanB w h x y n, k) := by
  intro n
  induction n with
  | zero =>
    intro _
    rw [if_pos (by omega)]
    simp [List.range_zero, List.foldl_nil]
  | succ m ih =>
    intro hm
    rw [List.range_succ, List.foldl_append, ih (by omega), List.foldl_cons, List.foldl_nil]
    by_cases h1 : m + 1 ≤ y * w + x
    · rw [if_pos (by omega), if_pos h1]
      exact scanA_step ρ w h x y m k hx hyh (by omega)
    · by_cases h2 : m = y * w + x
      · rw [if_pos (by omega), if_neg h1, h2]
        exact scanA_sand_step ρ w h x y k hx hy0 hyh
      · rw [if_neg (by omega), if_neg h1]
        exact scanB_step ρ w h x y m k hx hy0 hyh (by omega) (by omega)

lemma stepFrame_soloSand (ρ : Nat → Nat) (w h x y k : Nat)
    (hx : x < w) (hy0 : 0 < y) (hyh : y < h) :
    stepFrame ρ (soloSand w h x y, k) = (soloSand w h x (y - 1), k) := by
  have hsolo : soloSand w h x y = scanA w h x y 0 := by
    refine grid_ext rfl rfl ?_
    funext o
    unfold soloSand scanA
    dsimp only
    split_ifs <;> first | rfl | omega
  have hswh : y * w + x < w * h := offset_lt w h x y hx hyh
  have hfold := scan_fold ρ w h x y k hx hy0 hyh (w * h) le_rfl
  rw [if_neg (by omega)] at hfold
  unfold stepFrame
  dsimp only
  rw [hsolo]
  show ({ ((List.range (w * h)).foldl (simStep ρ w) (scanA w h x y 0, k)).1 with
      cells := fun o =>
        { (((List.range (w * h)).foldl (simStep ρ w) (scanA w h x y 0, k)).1.cells o) with
            has_been_updated := false } },
    ((List.range (w * h)).foldl (simStep ρ w) (scanA w h x y 0, k)).2)
    = (soloSand w h x (y - 1), k)
  rw [hfold]
  refine Prod.ext ?_ rfl
  dsimp only
  refine grid_ext rfl rfl ?_
  funext o
  unfold scanB soloSand
  dsimp only
  split_ifs <;> first | rfl | omega

lemma iterate_soloSand (ρ : Nat → Nat) (w h x k0 : Nat) (hh0 : 0 < h) (hx : x < w) :
    ∀ k, k ≤ h - 1 →
      (stepFrame ρ)^[k] (soloSand w h x (h - 1), k0) = (soloSand w h x (h - 1 - k), k0) := by
  intro k
  induction k with
  | zero => intro _; simp
  | succ m ih =>
    intro hk
    rw [Function.iterate_succ_apply', ih (by omega)]
    rw [stepFrame_soloSand ρ w h x (h - 1 - m) k0 hx (by omega) (by omega)]
    have : h - 1 - m - 1 = h - 1 - (m + 1) := by omega
    rw [this]

/-- C6: from a grid whose only occupied cell is a single default sand
particle at (x, height-1), after k frame steps (for any k up to height-1,
any rand() stream and any cursor) the sand particle sits at
(x, height-1-k) and every other in-range cell is empty; in particular
after exactly height-1 steps it sits at (x, 0), and no intermediate frame
ever has a second non-empty cell. -/
theorem C6_single_sand_settles (w h x k k0 : Nat) (ρ : Nat → Nat)
    (hh : 0 < h) (hx : x < w) (hk : k ≤ h - 1) :
    (((stepFrame ρ)^[k] (soloSand w h x (h - 1), k0)).1.cells ((h - 1 - k) * w + x)
      = sandParticle) ∧
    (∀ o, o < w * h → o ≠ (h - 1 - k) * w + x →
      ((stepFrame ρ)^[k] (soloSand w h x (h - 1), k0)).1.cells o = emptyParticle) := by
  rw [iterate_soloSand ρ w h x k0 hh hx k hk]
  constructor
  · unfold soloSand
    dsimp only
    rw [if_pos rfl]
  · intro o ho hne
    unfold soloSand
    dsimp only
    rw [if_neg hne]

/-- Witness for C6: the settling theorem instantiated on a 2 x 3 grid with
the sand starting at (1, 2) and two frame steps, landing at (1, 0). -/
theorem C6_single_sand_settles_witness :
    (((stepFrame (fun _ => 0))^[2] (soloSand 2 3 1 (3 - 1), 0)).1.cells ((3 - 1 - 2) * 2 + 1)
      = sandParticle) ∧
    (∀ o, o < 2 * 3 → o ≠ (3 - 1 - 2) * 2 + 1 →
      ((stepFrame (fun _ => 0))^[2] (soloSand 2 3 1 (3 - 1), 0)).1.cells o = emptyParticle) :=
  C6_single_sand_settles 2 3 1 2 0 (fun _ => 0) (by decide) (by decide) (by decide)
